import Mathlib

/-!
Verification of the convolution algorithm-selection engine
(src/convolution.cpp and src/ocl/convolutionocl.cpp) against its
natural-language specification.

Shallow embedding conventions:
* `std::size_t` tensor lengths are modelled as `Nat`; where the C++ code
  computes in `size_t` and wrap-around is defined behaviour, the model
  computes in `Int` and reduces once modulo 2^64 (`sizeT`), which agrees
  with step-wise modular arithmetic.
* `std::ptrdiff_t` computations are modelled as `Int` (the code converts
  `size_t` lengths to signed integers "to avoid possible underflows";
  we assume lengths fit in the signed range, as the code itself does).
* C++ `/` on signed integers truncates towards zero: `Int.tdiv`.
* A thrown `miopen::Exception` is modelled as `none` of an `Option`.
* External collaborators (device handle queries, solver construction,
  FFT sizing, kernel compilation, device timing) are oracle parameters
  gathered in `Externals`; the repository code under `src/` is embedded
  directly.
-/

namespace MIOpen

/-- Element types (`miopenDataType_t`); only the two used by the code. -/
inductive DataType
  | Float
  | Half
deriving DecidableEq, Repr

/-- `GetTypeSize`: bytes per element. -/
def GetTypeSize : DataType → Nat
  | .Float => 4
  | .Half => 2

/-- A rank-4 tensor descriptor `(N, C, H, W)` with an element type.
For a filter descriptor the `n` field is the output-channel axis `k`,
`c` the input-channel axis, and `h`, `w` the kernel height and width
(the code reads them as `filter_k, filter_c, filter_h, filter_w`). -/
structure TensorDescriptor where
  dtype : DataType
  n : Nat
  c : Nat
  h : Nat
  w : Nat
deriving DecidableEq, Repr

/-- `TensorDescriptor::GetElementSize` for a packed rank-4 tensor. -/
def TensorDescriptor.GetElementSize (t : TensorDescriptor) : Nat :=
  t.n * t.c * t.h * t.w

/-- `miopenConvolutionMode_t`. -/
inductive ConvMode
  | Convolution
  | Transpose
deriving DecidableEq, Repr

/-- `miopenPaddingMode_t`. -/
inductive PaddingMode
  | Default
  | Same
  | Valid
deriving DecidableEq, Repr

/-- `ConvolutionDescriptor`: mode, padding mode, padding, strides `u`, `v`
and dilations. -/
structure ConvolutionDescriptor where
  mode : ConvMode
  paddingMode : PaddingMode
  pad_h : Int
  pad_w : Int
  u : Int
  v : Int
  dilation_h : Int
  dilation_w : Int
deriving DecidableEq, Repr

/-- The checks performed by the `ConvolutionDescriptor` constructors: a
descriptor that fails them cannot be built (construction throws). -/
def ConvolutionDescriptor.WellFormed (cd : ConvolutionDescriptor) : Prop :=
  0 ≤ cd.pad_h ∧ 0 ≤ cd.pad_w ∧ 0 < cd.u ∧ 0 < cd.v ∧
    0 < cd.dilation_h ∧ 0 < cd.dilation_w ∧ cd.dilation_h = cd.dilation_w

/-- Reduction of a signed value to `size_t` (the conversion applied when a
`size_t` expression is assembled from mixed signed/unsigned operands). -/
def sizeT (a : Int) : Nat := (a % (2 ^ 64)).toNat

/-- `ConvolutionDescriptor::GetForwardOutputDim`.  Computation is done in
`Int` (`std::ptrdiff_t` in the code); `none` models the thrown
`miopenStatusBadParm` on a type or channel mismatch.  The `Same`/`Valid`
branches use `std::ceil` over `double` in the code, exact for the sizes
the library accepts; they are modelled with the rational ceiling. -/
def GetForwardOutputDim (cd : ConvolutionDescriptor)
    (inp fil : TensorDescriptor) : Option (Int × Int × Int × Int) :=
  if inp.dtype ≠ fil.dtype then none
  else if cd.mode = .Convolution ∧ inp.c ≠ fil.c then none
  else if cd.mode = .Transpose ∧ inp.c ≠ fil.n then none
  else
    let input_n : Int := inp.n
    let input_h : Int := inp.h
    let input_w : Int := inp.w
    let filter_k : Int := fil.n
    let filter_c : Int := fil.c
    let filter_h : Int := fil.h
    let filter_w : Int := fil.w
    match cd.paddingMode with
    | .Default =>
      match cd.mode with
      | .Transpose =>
        some (input_n, filter_c,
          max 1 (cd.u * (input_h - 1) + 1 + cd.dilation_h * (filter_h - 1) - 2 * cd.pad_h),
          max 1 (cd.v * (input_w - 1) + 1 + cd.dilation_w * (filter_w - 1) - 2 * cd.pad_w))
      | .Convolution =>
        some (input_n, filter_k,
          max 1 ((input_h - (1 + cd.dilation_h * (filter_h - 1)) + 2 * cd.pad_h).tdiv cd.u + 1),
          max 1 ((input_w - (1 + cd.dilation_w * (filter_w - 1)) + 2 * cd.pad_w).tdiv cd.v + 1))
    | .Same =>
      some (input_n, filter_k, ⌈(input_h : ℚ) / (cd.u : ℚ)⌉, ⌈(input_w : ℚ) / (cd.v : ℚ)⌉)
    | .Valid =>
      some (input_n, filter_k,
        ⌈((input_h - filter_h + 1 : Int) : ℚ) / (cd.u : ℚ)⌉,
        ⌈((input_w - filter_w + 1 : Int) : ℚ) / (cd.v : ℚ)⌉)

/-- `ConvolutionDescriptor::GetForwardOutputTensor`: packs the computed
dimensions (returned as `size_t` in the code) into a descriptor of the
input's element type. -/
def GetForwardOutputTensor (cd : ConvolutionDescriptor)
    (inp fil : TensorDescriptor) : Option TensorDescriptor :=
  (GetForwardOutputDim cd inp fil).map fun d =>
    ⟨inp.dtype, d.1.toNat, d.2.1.toNat, d.2.2.1.toNat, d.2.2.2.toNat⟩

/-- `ConvolutionDescriptor::GetBackwardOutputDim`: recovers the input
shape from an output and a filter.  The code computes in `std::size_t`,
so the spatial expressions are reduced modulo 2^64. -/
def GetBackwardOutputDim (cd : ConvolutionDescriptor)
    (outd fil : TensorDescriptor) : Option (Nat × Nat × Nat × Nat) :=
  if outd.dtype ≠ fil.dtype then none
  else if outd.c ≠ fil.n then none
  else
    some (outd.n, fil.c,
      sizeT (cd.u * ((outd.h : Int) - 1) - 2 * cd.pad_h + (fil.h : Int)),
      sizeT (cd.v * ((outd.w : Int) - 1) - 2 * cd.pad_w + (fil.w : Int)))

/-! ## Workspace planner: GEMM-family sizing (pure parts)

The sizes are computed in `int` / `size_t` in the code; we assume the
products fit (signed overflow would be undefined behaviour there). -/

/-- `ConvolutionDescriptor::ForwardGetWorkSpaceSizeGEMM`.  The device name
comes from the handle (`handle.GetDeviceName()`). -/
def ForwardGetWorkSpaceSizeGEMM (deviceName : String)
    (cd : ConvolutionDescriptor) (wDesc yDesc : TensorDescriptor) : Nat :=
  let workspace_size :=
    wDesc.c * wDesc.h * wDesc.w * yDesc.h * yDesc.w * GetTypeSize yDesc.dtype
  -- No workspace is needed for 1x1_stride=1 convolutions
  if wDesc.h = 1 ∧ wDesc.w = 1 ∧ cd.u = 1 ∧ cd.v = 1 ∧ cd.pad_h = 0 ∧ cd.pad_w = 0 then 0
  -- gfx803 devices have 4gb-6gb memory
  else if 2 ^ 30 < workspace_size ∧ deviceName = "gfx803" then 0
  else workspace_size

/-- `ConvolutionDescriptor::ForwardGetWorkSpaceSizeGEMMTranspose`. -/
def ForwardGetWorkSpaceSizeGEMMTranspose (xDesc yDesc : TensorDescriptor) : Nat :=
  let x_t_size := xDesc.n * xDesc.c * yDesc.h * yDesc.w * GetTypeSize xDesc.dtype
  let y_t_size := yDesc.GetElementSize * GetTypeSize yDesc.dtype
  x_t_size + y_t_size

/-- `ConvolutionDescriptor::BackwardDataGetWorkSpaceSizeGEMM`. -/
def BackwardDataGetWorkSpaceSizeGEMM (deviceName : String)
    (cd : ConvolutionDescriptor) (wDesc dyDesc : TensorDescriptor) : Nat :=
  let gemm_size :=
    wDesc.c * wDesc.h * wDesc.w * dyDesc.h * dyDesc.w * GetTypeSize dyDesc.dtype
  -- No workspace is needed for 1x1_stride=1 convolutions
  if wDesc.h = 1 ∧ wDesc.w = 1 ∧ cd.u = 1 ∧ cd.v = 1 ∧ cd.pad_h = 0 ∧ cd.pad_w = 0 then 0
  else if deviceName = "gfx803" ∧ 2 ^ 30 < gemm_size then 0
  else gemm_size

/-- `ConvolutionDescriptor::BackwardDataGetWorkSpaceSizeGEMMTranspose`. -/
def BackwardDataGetWorkSpaceSizeGEMMTranspose (dyDesc dxDesc : TensorDescriptor) : Nat :=
  let dx_t_size := dxDesc.n * dxDesc.c * dyDesc.h * dyDesc.w * GetTypeSize dxDesc.dtype
  let dy_t_size := dyDesc.GetElementSize * GetTypeSize dyDesc.dtype
  dx_t_size + dy_t_size

/-- `ConvolutionDescriptor::BackwardWeightsGetWorkSpaceSizeGEMM`.  Unlike
the forward and backward-data variants, this function has no
1x1/stride-1/zero-padding early return in the code. -/
def BackwardWeightsGetWorkSpaceSizeGEMM (deviceName : String)
    (cd : ConvolutionDescriptor) (dyDesc dwDesc : TensorDescriptor) : Nat :=
  let _ := cd
  let gemm_size :=
    dwDesc.c * dwDesc.h * dwDesc.w * dyDesc.h * dyDesc.w * GetTypeSize dyDesc.dtype
  if deviceName = "gfx803" ∧ 2 ^ 30 < gemm_size then 0
  else gemm_size

/-! ## Applicability predicates -/

/-- Read-only device capability snapshot exposed by the handle. -/
structure DeviceInfo where
  deviceName : String
  maxComputeUnits : Nat
deriving DecidableEq, Repr

/-- `ConvolutionDescriptor::IsWinograd3x3Supported`.
`precompiledBinariesDisabled` is the
`MIOPEN_DEBUG_AMD_ROCM_PRECOMPILED_BINARIES` environment toggle.  In the
code `device_is_gfx8` is `device_name.find("gfx8") != npos`; under the
preceding device allowlist this holds exactly for `"gfx803"`. -/
def IsWinograd3x3Supported (precompiledBinariesDisabled : Bool) (dev : DeviceInfo)
    (cd : ConvolutionDescriptor) (direction : Bool)
    (wDesc xDesc : TensorDescriptor) : Bool :=
  if precompiledBinariesDisabled then false
  else if ¬(dev.deviceName = "gfx803" ∨ dev.deviceName = "gfx900" ∨
            dev.deviceName = "gfx906") then false
  else
    let device_is_gfx8 := dev.deviceName = "gfx803"
    let batch_sz := xDesc.n
    let n_inputs := xDesc.c
    let in_height := xDesc.h
    let in_width := xDesc.w
    let kernel_size0 := wDesc.h
    let kernel_size1 := wDesc.w
    let n_outputs := if direction then wDesc.n else wDesc.c
    decide (cd.pad_h = 1 ∧ cd.pad_w = 1 ∧ kernel_size0 = 3 ∧ kernel_size1 = 3 ∧
      cd.u = 1 ∧ cd.v = 1 ∧
      batch_sz < 2 ^ 16 ∧ n_inputs < 2 ^ 16 ∧ n_outputs < 2 ^ 16 ∧
      in_height < 2 ^ 16 ∧ in_width < 2 ^ 16 ∧ dev.maxComputeUnits < 2 ^ 16 ∧
      n_inputs * in_height * in_width ≤ 2 ^ 28 ∧
      n_outputs * in_height * in_width ≤ 2 ^ 28 ∧
      n_inputs * kernel_size0 * kernel_size1 ≤ 2 ^ 28 ∧
      n_outputs * kernel_size0 * kernel_size1 ≤ 2 ^ 28 ∧
      n_inputs % 2 = 0 ∧ (if device_is_gfx8 then 16 else 18) ≤ n_inputs ∧
      GetTypeSize wDesc.dtype = 4 ∧ GetTypeSize xDesc.dtype = 4)

/-- `ConvolutionDescriptor::IsBwdWeightsDirectSupported`. -/
def IsBwdWeightsDirectSupported (cd : ConvolutionDescriptor)
    (wDesc : TensorDescriptor) : Bool :=
  let k0 := wDesc.h
  let k1 := wDesc.w
  let supported_filters :=
    (k0 = 1 ∧ k1 = 1) ∨ (k0 = 3 ∧ k1 = 3) ∨ (k0 = 5 ∧ k1 = 5) ∨ (k0 = 7 ∧ k1 = 7) ∨
    (k0 = 9 ∧ k1 = 9) ∨ (k0 = 11 ∧ k1 = 11) ∨
    (k0 = 5 ∧ k1 = 10 ∧ cd.u = 2 ∧ cd.v = 2 ∧ cd.pad_h = 0 ∧ cd.pad_w = 0) ∨
    (k0 = 5 ∧ k1 = 20 ∧ cd.u = 2 ∧ cd.v = 2 ∧ cd.pad_h = 0 ∧ cd.pad_w = 0)
  let workarounds :=
    (k0 = 1 ∧ k1 = 1 ∧ (2 < cd.u ∨ 2 < cd.v)) ∨
    (k0 = 3 ∧ k1 = 3 ∧ (2 < cd.u ∨ 2 < cd.v)) ∨
    (k0 % 2 = 0 ∧ k1 % 2 = 0)
  decide (supported_filters ∧ ¬workarounds)

/-- `ConvolutionDescriptor::IsDirectSupported`.  Note the 1x1 workaround
here excludes nonzero padding, not large strides. -/
def IsDirectSupported (cd : ConvolutionDescriptor)
    (wDesc : TensorDescriptor) : Bool :=
  let k0 := wDesc.h
  let k1 := wDesc.w
  let supported_filters :=
    (k0 = 1 ∧ k1 = 1) ∨ (k0 = 3 ∧ k1 = 3) ∨ (k0 = 5 ∧ k1 = 5) ∨ (k0 = 7 ∧ k1 = 7) ∨
    (k0 = 9 ∧ k1 = 9) ∨ (k0 = 11 ∧ k1 = 11) ∨
    (k0 = 5 ∧ k1 = 10 ∧ cd.u = 2 ∧ cd.v = 2 ∧ cd.pad_h = 0 ∧ cd.pad_w = 0) ∨
    (k0 = 5 ∧ k1 = 20 ∧ cd.u = 2 ∧ cd.v = 2 ∧ cd.pad_h = 0 ∧ cd.pad_w = 0)
  let workarounds :=
    (k0 = 3 ∧ k1 = 3 ∧ (2 < cd.u ∨ 2 < cd.v)) ∨
    (k0 = 1 ∧ k1 = 1 ∧ (0 < cd.pad_h ∨ 0 < cd.pad_w)) ∨
    (k0 % 2 = 0 ∧ k1 % 2 = 0)
  decide (supported_filters ∧ ¬workarounds)

/-! ## Configuration fingerprints and handle-owned caches -/

/-- Modelled from the spec: `mloBuildConf_Key` renders a canonical string
from whatever was set on the `mlo_construct` object — the direction flag,
the three tensor descriptors, and the convolution parameters when
`setConvDescr` was called (`none` when it was not, which leaves the
object's defaults in the key).  The encoding is canonical (injective), so
the key is modelled as the tuple itself. -/
structure ConfigKey where
  direction : Int
  outDesc : TensorDescriptor
  inDesc : TensorDescriptor
  weiDesc : TensorDescriptor
  convParams : Option (Int × Int × Int × Int × Int × Int)
deriving DecidableEq, Repr

/-- The parameter tuple installed by `setConvDescr`. -/
def convParamsOf (cd : ConvolutionDescriptor) : Int × Int × Int × Int × Int × Int :=
  (cd.pad_h, cd.pad_w, cd.u, cd.v, cd.dilation_h, cd.dilation_w)

/-- Association-list lookup standing in for `std::unordered_map::find`. -/
def lookupK {α : Type} (l : List (ConfigKey × α)) (k : ConfigKey) : Option α :=
  (l.find? fun p => decide (p.1 = k)).map fun p => p.2

/-- `std::unordered_map::insert`: a no-op when the key is already present. -/
def insertK {α : Type} (l : List (ConfigKey × α)) (k : ConfigKey) (a : α) :
    List (ConfigKey × α) :=
  match lookupK l k with
  | some _ => l
  | none => (k, a) :: l

/-- The handle-owned state used by this code: the device snapshot, the
three per-direction workspace-size caches and the three per-direction
winning-algorithm caches. -/
structure Handle where
  dev : DeviceInfo
  fwd_size_map : List (ConfigKey × Nat)
  bwdData_size_map : List (ConfigKey × Nat)
  bwdWeights_size_map : List (ConfigKey × Nat)
  fwd_map : List (ConfigKey × Int)
  bwdData_map : List (ConfigKey × Int)
  bwdWeights_map : List (ConfigKey × Int)
deriving DecidableEq, Repr

/-- Oracles for the external collaborators (solver construction, FFT
strategy, kernel compilation cache, device timing, environment toggles).
`kernelTime` gives the device time reported for the k-th kernel executed
within one search call. -/
structure Externals where
  precompiledBinariesDisabled : Bool
  convDirectDisabled : Bool
  findAllSolutions :
    Int → ConvolutionDescriptor → TensorDescriptor → TensorDescriptor →
      TensorDescriptor → Option (List Nat)
  findAllSolutionsWrW :
    ConvolutionDescriptor → TensorDescriptor → TensorDescriptor →
      TensorDescriptor → Option (List Nat)
  fwdFFTSize : TensorDescriptor → TensorDescriptor → TensorDescriptor → Nat
  bwdFFTSize : TensorDescriptor → TensorDescriptor → TensorDescriptor → Nat
  winoConstructOk : Int → TensorDescriptor → TensorDescriptor → TensorDescriptor → Bool
  fastBinaryWinograd : Bool
  directConstruct :
    Int → TensorDescriptor → TensorDescriptor → TensorDescriptor → Option Nat
  fwdFFTFindOk : Bool
  bwdFFTFindOk : Bool
  wrwConstruct : TensorDescriptor → TensorDescriptor → TensorDescriptor → Option Nat
  kernelTime : Nat → Int
  getKernel : String → ConfigKey → Option String
  getKernels : String → ConfigKey → List String
  fwdDirect11x11Passes : Nat

/-! ## Workspace planner: direct family and the cached top-level queries -/

/-- `ConvolutionDescriptor::ForwardBackwardDataGetWorkSpaceSizeDirect`:
maximum workspace over all solver solutions; 0 when the predicate fails,
the path is disabled, or solution construction throws (`none`). -/
def ForwardBackwardDataGetWorkSpaceSizeDirect (ext : Externals)
    (cd : ConvolutionDescriptor) (xDesc yDesc wDesc : TensorDescriptor)
    (direction : Int) : Nat :=
  if ¬IsDirectSupported cd wDesc ∨ ext.convDirectDisabled then 0
  else
    match ext.findAllSolutions direction cd xDesc yDesc wDesc with
    | none => 0
    | some ss => ss.foldl max 0

/-- `ConvolutionDescriptor::BackwardWeightsGetWorkSpaceSizeDirect` (no
applicability check in the code; exceptions yield 0). -/
def BackwardWeightsGetWorkSpaceSizeDirect (ext : Externals)
    (cd : ConvolutionDescriptor) (dyDesc xDesc dwDesc : TensorDescriptor) : Nat :=
  match ext.findAllSolutionsWrW cd dyDesc xDesc dwDesc with
  | none => 0
  | some ss => ss.foldl max 0

/-- `ConvolutionDescriptor::ForwardGetWorkSpaceSize`.  Note: the code
builds the cache key via `mlo_construct_direct2D find_params(1)` with the
three descriptors set but does NOT call `setConvDescr`, so the key has no
convolution parameters in it. -/
def ForwardGetWorkSpaceSize (ext : Externals) (cd : ConvolutionDescriptor)
    (h : Handle) (wDesc xDesc yDesc : TensorDescriptor) : Nat × Handle :=
  let find_config : ConfigKey := ⟨1, yDesc, xDesc, wDesc, none⟩
  match lookupK h.fwd_size_map find_config with
  | some sz => (sz, h)
  | none =>
    let wsize :=
      if cd.mode = .Transpose then
        BackwardDataGetWorkSpaceSizeGEMM h.dev.deviceName cd wDesc xDesc
      else
        let direct_workspace :=
          ForwardBackwardDataGetWorkSpaceSizeDirect ext cd xDesc yDesc wDesc 1
        if 1 < cd.dilation_w ∨ 1 < cd.dilation_h then
          max (ForwardGetWorkSpaceSizeGEMM h.dev.deviceName cd wDesc yDesc)
            direct_workspace
        -- Use transpose path if input ht and width <= 14 for 1x1_stride=1
        -- convolutions OR for 1x1_stride=2
        else if (wDesc.h = 1 ∧ wDesc.w = 1 ∧ cd.pad_h = 0 ∧ cd.pad_w = 0 ∧
                 cd.dilation_h = 1 ∧ cd.dilation_w = 1) ∧
                ((xDesc.h ≤ 14 ∧ xDesc.w ≤ 14 ∧ cd.u = 1 ∧ cd.v = 1) ∨
                 (cd.u = 2 ∧ cd.v = 2)) then
          max (ForwardGetWorkSpaceSizeGEMMTranspose xDesc yDesc) direct_workspace
        else if IsWinograd3x3Supported ext.precompiledBinariesDisabled h.dev cd
                  true wDesc xDesc then 0
        else
          max (max (ext.fwdFFTSize wDesc xDesc yDesc)
                 (ForwardGetWorkSpaceSizeGEMM h.dev.deviceName cd wDesc yDesc))
            direct_workspace
    (wsize, { h with fwd_size_map := insertK h.fwd_size_map find_config wsize })

/-- `ConvolutionDescriptor::ConvolutionBackwardWeightsGetWorkSpaceSize`.
As in the forward case the cache key is built without `setConvDescr`. -/
def ConvolutionBackwardWeightsGetWorkSpaceSize (ext : Externals)
    (cd : ConvolutionDescriptor) (h : Handle)
    (dyDesc xDesc dwDesc : TensorDescriptor) : Nat × Handle :=
  let find_config : ConfigKey := ⟨0, dyDesc, xDesc, dwDesc, none⟩
  match lookupK h.bwdWeights_size_map find_config with
  | some sz => (sz, h)
  | none =>
    let wsize :=
      if cd.mode = .Transpose then
        BackwardWeightsGetWorkSpaceSizeGEMM h.dev.deviceName cd xDesc dwDesc
      else
        max (BackwardWeightsGetWorkSpaceSizeDirect ext cd dyDesc xDesc dwDesc)
          (BackwardWeightsGetWorkSpaceSizeGEMM h.dev.deviceName cd dyDesc dwDesc)
    (wsize, { h with bwdWeights_size_map := insertK h.bwdWeights_size_map find_config wsize })

/-! ## Algorithm search engine -/

/-- `PerfField`: one benchmarked candidate (name, measured time, workspace).
Modelled from the spec: its `operator<` (declared in the convolution
header, outside `src/`) orders candidates by measured time. -/
structure PerfField where
  name : String
  time : Int
  workspace : Nat
deriving DecidableEq, Repr

/-- One `miopenConvAlgoPerf_t` entry: the per-direction algorithm fields
form a union, modelled as the single field `algo`. -/
structure PerfEntry where
  algo : Int
  time : Int
  memory : Nat
deriving DecidableEq, Repr

/-- The contract of `std::sort` on the perf db: the output is a
permutation of the input that is sorted by measured time.  The relative
order of elements with equal time is NOT specified by `std::sort`. -/
def IsStdSortOutput (input output : List PerfField) : Prop :=
  List.Perm input output ∧ output.Pairwise fun a b => a.time ≤ b.time

/-- Modelled from the spec: `FwdAlgoResolver` maps a candidate name to the
public `miopenConvFwdAlgorithm_t` identifier. -/
def FwdAlgoResolver : String → Int
  | "miopenConvolutionFwdAlgoDirect" => 1
  | "miopenConvolutionFwdAlgoFFT" => 2
  | "miopenConvolutionFwdAlgoWinograd" => 3
  | _ => 0

/-- Modelled from the spec: `BwdDataAlgoResolver` maps a candidate name to
the public `miopenConvBwdDataAlgorithm_t` identifier. -/
def BwdDataAlgoResolver : String → Int
  | "miopenConvolutionBwdDataAlgoDirect" => 1
  | "miopenConvolutionBwdDataAlgoFFT" => 2
  | "miopenConvolutionBwdDataAlgoWinograd" => 3
  | "miopenTransposeBwdDataAlgoGEMM" => 4
  | _ => 0

/-- Modelled from the spec: `BwdWeightsAlgoResolver` maps a candidate name
to the public `miopenConvBwdWeightsAlgorithm_t` identifier. -/
def BwdWeightsAlgoResolver : String → Int
  | "miopenConvolutionBwdWeightsAlgoDirect" => 1
  | _ => 0

/-- The cache-hit write: `perfResults[0].<dir>_algo = cached` touches only
the algorithm field of the first entry. -/
def writeAlgo0 (perf0 : List PerfEntry) (a : Int) : List PerfEntry :=
  match perf0 with
  | [] => []
  | e :: rest => { e with algo := a } :: rest

/-- The post-sort write loop: entries `0 ≤ i < count` receive the resolved
identifier, time and workspace of the i-th ranked candidate; later entries
are untouched.  (The code indexes the caller's array; `count` never
exceeds the requested count.) -/
def writeEntries (resolver : String → Int) (perf0 : List PerfEntry)
    (sorted : List PerfField) (count : Nat) : List PerfEntry :=
  (sorted.take count).map (fun pf => ⟨resolver pf.name, pf.time, pf.workspace⟩) ++
    perf0.drop count

/-- Sum of the device times of `n` kernel executions starting at global
run index `start`. -/
def sumTimes (ext : Externals) (start n : Nat) : Int :=
  ((List.range n).map fun i => ext.kernelTime (start + i)).sum

/-- Outcome of a search call: the (updated) caller perf array, the value
stored in `*returnedAlgoCount`, the updated handle, the number of kernels
executed for benchmarking, and (ghost, for specification) the candidate
db in discovery order. -/
structure FindOutcome where
  perf : List PerfEntry
  returnedAlgoCount : Nat
  handle : Handle
  runs : Nat
  db : List PerfField
deriving DecidableEq, Repr

/-- The common search epilogue: fail (`MIOPEN_THROW`) when no candidate
succeeded, otherwise sort the db (the caller supplies a `sorted` list
subject to `IsStdSortOutput`), report `min(request, size)` ranked results
and insert the winner into the direction's algorithm cache.  An empty
`sorted` against a nonempty db violates the sort contract and is mapped
to `none`. -/
def finishSearch (resolver : String → Int) (perf0 : List PerfEntry)
    (sorted : List PerfField) (request : Int) (runs : Nat)
    (db : List PerfField) (insertWinner : String → Handle) : Option FindOutcome :=
  if db = [] then none
  else
    match sorted with
    | [] => none
    | best :: _ =>
      let count := min request.toNat sorted.length
      some ⟨writeEntries resolver perf0 sorted count, count,
        insertWinner best.name, runs, db⟩

/-- Fingerprint of a forward search problem (all of `setOutputDescFromMLDesc`,
`setInputDescFromMLDesc`, `setWeightDescFromMLDesc` and `setConvDescr` are
called before `mloBuildConf_Key`). -/
def fwdFindKey (cd : ConvolutionDescriptor) (xDesc wDesc yDesc : TensorDescriptor) :
    ConfigKey :=
  ⟨1, yDesc, xDesc, wDesc, some (convParamsOf cd)⟩

/-- The cache-miss part of `FindConvFwdAlgorithm`: benchmark every
applicable candidate into the perf db (in the fixed source order: GEMM
variants, then Winograd, then Direct, then FFT), then run the common
epilogue.  Each branch records the number of kernels it executes and the
accumulated time exactly as the code does. -/
def fwdSearchBody (ext : Externals) (cd : ConvolutionDescriptor) (h : Handle)
    (xDesc wDesc yDesc : TensorDescriptor) (request : Int)
    (perf0 : List PerfEntry) (workSpaceGiven : Bool) (workSpaceSize : Nat)
    (sorted : List PerfField) : Option FindOutcome :=
  let in_n : Int := xDesc.n
  let gemmPart : List PerfField × Nat :=
    if cd.mode = .Transpose then
      if xDesc.dtype = .Float then
        let workspace_req := BackwardDataGetWorkSpaceSizeGEMM h.dev.deviceName cd wDesc xDesc
        -- 1x1 does not require im2col or workspace
        if wDesc.h = 1 ∧ wDesc.w = 1 ∧ cd.v = 1 ∧ cd.u = 1 then
          ([⟨"miopenConvolutionFwdAlgoGEMM", in_n * ext.kernelTime 0, 0⟩], 1)
        -- if not 1x1: gemm into the workspace, then col2im
        else if workSpaceGiven ∧ workspace_req ≤ workSpaceSize then
          ([⟨"miopenConvolutionFwdAlgoGEMM",
             in_n * ext.kernelTime 0 + in_n * ext.kernelTime 1, workspace_req⟩], 2)
        else ([], 0)
      else ([], 0)
    else
      if xDesc.dtype = .Float then
        -- Use transpose path if input ht and width <= 14 for 1x1_stride=1
        -- convolutions OR for 1x1_stride=2
        if (wDesc.h = 1 ∧ wDesc.w = 1 ∧ cd.pad_h = 0 ∧ cd.pad_w = 0 ∧
            cd.dilation_h = 1 ∧ cd.dilation_w = 1) ∧
           ((xDesc.h ≤ 14 ∧ xDesc.w ≤ 14 ∧ cd.u = 1 ∧ cd.v = 1) ∨
            (cd.u = 2 ∧ cd.v = 2)) then
          let workspace_req := ForwardGetWorkSpaceSizeGEMMTranspose xDesc yDesc
          if workSpaceGiven ∧ workspace_req ≤ workSpaceSize then
            ([⟨"miopenConvolutionFwdAlgoGEMM",
               ext.kernelTime 0 + ext.kernelTime 1 + ext.kernelTime 2, workspace_req⟩], 3)
          else ([], 0)
        -- 1x1_stride=1 with GEMM and zero workspace
        else if wDesc.h = 1 ∧ wDesc.w = 1 ∧ cd.pad_h = 0 ∧ cd.pad_w = 0 ∧
                cd.u = 1 ∧ cd.v = 1 ∧ cd.dilation_w = 1 ∧ cd.dilation_h = 1 then
          ([⟨"miopenConvolutionFwdAlgoGEMM", in_n * ext.kernelTime 0, 0⟩], 1)
        -- if not 1x1: im2col then gemm
        else if workSpaceGiven ∧
                ForwardGetWorkSpaceSizeGEMM h.dev.deviceName cd wDesc yDesc ≤ workSpaceSize then
          ([⟨"miopenConvolutionFwdAlgoGEMM",
             in_n * (ext.kernelTime 0 + ext.kernelTime 1),
             ForwardGetWorkSpaceSizeGEMM h.dev.deviceName cd wDesc yDesc⟩], 2)
        else ([], 0)
      else ([], 0)
  let afterWino : List PerfField × Nat :=
    if cd.mode = .Convolution ∧ cd.dilation_h = 1 ∧ cd.dilation_w = 1 ∧
       ext.winoConstructOk 1 xDesc wDesc yDesc then
      (gemmPart.1 ++ [⟨"miopenConvolutionFwdAlgoWinograd",
         ext.kernelTime gemmPart.2, 0⟩], gemmPart.2 + 1)
    else gemmPart
  let afterDirect : List PerfField × Nat :=
    if cd.mode = .Convolution ∧ cd.dilation_h = 1 ∧ cd.dilation_w = 1 ∧
       IsDirectSupported cd wDesc ∧ ¬ext.convDirectDisabled ∧
       ¬(IsWinograd3x3Supported ext.precompiledBinariesDisabled h.dev cd true wDesc xDesc ∧
         ext.fastBinaryWinograd) then
      match ext.directConstruct 1 xDesc wDesc yDesc with
      | some nk =>
        (afterWino.1 ++ [⟨"miopenConvolutionFwdAlgoDirect",
           sumTimes ext afterWino.2 nk, 0⟩], afterWino.2 + nk)
      | none => afterWino
    else afterWino
  let workspace_fft := ext.fwdFFTSize wDesc xDesc yDesc
  let afterFFT : List PerfField × Nat :=
    if cd.mode = .Convolution ∧ cd.dilation_h = 1 ∧ cd.dilation_w = 1 ∧
       ext.fwdFFTFindOk ∧ workSpaceGiven ∧ workspace_fft ≤ workSpaceSize then
      (afterDirect.1 ++ [⟨"miopenConvolutionFwdAlgoFFT",
         ext.kernelTime afterDirect.2, workspace_fft⟩], afterDirect.2 + 1)
    else afterDirect
  finishSearch FwdAlgoResolver perf0 sorted request afterFFT.2 afterFFT.1
    fun winner =>
      let m := insertK h.fwd_map (fwdFindKey cd xDesc wDesc yDesc) (FwdAlgoResolver winner)
      { h with fwd_map := m }

/-- `ConvolutionDescriptor::FindConvFwdAlgorithm`.  On a cache hit the
cached winner is returned without any benchmarking only when exactly one
result was requested; otherwise the full search runs. -/
def FindConvFwdAlgorithm (ext : Externals) (cd : ConvolutionDescriptor)
    (h : Handle) (xDesc wDesc yDesc : TensorDescriptor) (requestAlgoCount : Int)
    (perf0 : List PerfEntry) (workSpaceGiven : Bool) (workSpaceSize : Nat)
    (sorted : List PerfField) : Option FindOutcome :=
  if requestAlgoCount < 1 then none
  else
    match lookupK h.fwd_map (fwdFindKey cd xDesc wDesc yDesc) with
    | some cached =>
      if requestAlgoCount = 1 then some ⟨writeAlgo0 perf0 cached, 1, h, 0, []⟩
      else fwdSearchBody ext cd h xDesc wDesc yDesc requestAlgoCount perf0
        workSpaceGiven workSpaceSize sorted
    | none => fwdSearchBody ext cd h xDesc wDesc yDesc requestAlgoCount perf0
        workSpaceGiven workSpaceSize sorted

/-- Fingerprint of a backward-data search problem. -/
def bwdDataFindKey (cd : ConvolutionDescriptor)
    (dyDesc wDesc dxDesc : TensorDescriptor) : ConfigKey :=
  ⟨0, dyDesc, dxDesc, wDesc, some (convParamsOf cd)⟩

/-- The cache-miss part of `FindConvBwdDataAlgorithm` (source order:
Winograd, Direct, FFT, then the GEMM variants). -/
def bwdDataSearchBody (ext : Externals) (cd : ConvolutionDescriptor) (h : Handle)
    (dyDesc wDesc dxDesc : TensorDescriptor) (request : Int)
    (perf0 : List PerfEntry) (workSpaceGiven : Bool) (workSpaceSize : Nat)
    (sorted : List PerfField) : Option FindOutcome :=
  let in_n : Int := dxDesc.n
  let gemmTranspose : List PerfField × Nat :=
    if cd.mode = .Transpose then
      if dyDesc.dtype = .Float then
        let workspace_req := ForwardGetWorkSpaceSizeGEMM h.dev.deviceName cd wDesc dxDesc
        -- 1x1 does not require im2col or workspace
        if wDesc.h = 1 ∧ wDesc.w = 1 ∧ cd.v = 1 ∧ cd.u = 1 then
          ([⟨"miopenTransposeBwdDataAlgoGEMM", in_n * ext.kernelTime 0, 0⟩], 1)
        -- if not 1x1: im2col then gemm
        else if workSpaceGiven ∧ workspace_req ≤ workSpaceSize then
          ([⟨"miopenTransposeBwdDataAlgoGEMM",
             in_n * (ext.kernelTime 0 + ext.kernelTime 1), workspace_req⟩], 2)
        else ([], 0)
      else ([], 0)
    else ([], 0)
  let afterWino : List PerfField × Nat :=
    if cd.mode = .Convolution ∧ cd.dilation_h = 1 ∧ cd.dilation_w = 1 ∧
       ext.winoConstructOk 0 dxDesc wDesc dyDesc then
      (gemmTranspose.1 ++ [⟨"miopenConvolutionBwdDataAlgoWinograd",
         ext.kernelTime gemmTranspose.2, 0⟩], gemmTranspose.2 + 1)
    else gemmTranspose
  let afterDirect : List PerfField × Nat :=
    if cd.mode = .Convolution ∧ cd.dilation_h = 1 ∧ cd.dilation_w = 1 ∧
       IsDirectSupported cd wDesc ∧ ¬ext.convDirectDisabled ∧
       ¬(IsWinograd3x3Supported ext.precompiledBinariesDisabled h.dev cd false wDesc dyDesc ∧
         ext.fastBinaryWinograd) then
      match ext.directConstruct 0 dxDesc wDesc dyDesc with
      | some nk =>
        (afterWino.1 ++ [⟨"miopenConvolutionBwdDataAlgoDirect",
           sumTimes ext afterWino.2 nk, 0⟩], afterWino.2 + nk)
      | none => afterWino
    else afterWino
  let workspace_fft := ext.bwdFFTSize wDesc dyDesc dxDesc
  let afterFFT : List PerfField × Nat :=
    if cd.mode = .Convolution ∧ cd.dilation_h = 1 ∧ cd.dilation_w = 1 ∧
       ext.bwdFFTFindOk ∧ workSpaceGiven ∧ workspace_fft ≤ workSpaceSize then
      (afterDirect.1 ++ [⟨"miopenConvolutionBwdDataAlgoFFT",
         ext.kernelTime afterDirect.2, workspace_fft⟩], afterDirect.2 + 1)
    else afterDirect
  let afterGemm : List PerfField × Nat :=
    if cd.mode = .Convolution ∧ dyDesc.dtype = .Float then
      -- 1x1, stride 2: SetTensor, transpose, gemm, transpose
      if wDesc.h = 1 ∧ wDesc.w = 1 ∧ cd.pad_h = 0 ∧ cd.pad_w = 0 ∧
         cd.u = 2 ∧ cd.v = 2 ∧ cd.dilation_w = 1 ∧ cd.dilation_h = 1 ∧
         workSpaceGiven ∧
         BackwardDataGetWorkSpaceSizeGEMMTranspose dyDesc dxDesc ≤ workSpaceSize then
        (afterFFT.1 ++ [⟨"miopenConvolutionBwdDataAlgoGEMM",
           ext.kernelTime afterFFT.2 + ext.kernelTime (afterFFT.2 + 1) +
             ext.kernelTime (afterFFT.2 + 2) + ext.kernelTime (afterFFT.2 + 3),
           BackwardDataGetWorkSpaceSizeGEMMTranspose dyDesc dxDesc⟩], afterFFT.2 + 4)
      -- 1x1_stride=1 convolutions use GEMM and zero workspace
      else if wDesc.h = 1 ∧ wDesc.w = 1 ∧ cd.pad_h = 0 ∧ cd.pad_w = 0 ∧
              cd.u = 1 ∧ cd.v = 1 ∧ cd.dilation_w = 1 ∧ cd.dilation_h = 1 then
        (afterFFT.1 ++ [⟨"miopenConvolutionBwdDataAlgoGEMM",
           in_n * ext.kernelTime afterFFT.2, 0⟩], afterFFT.2 + 1)
      -- if not 1x1: gemm into the workspace, then col2im
      else if workSpaceGiven ∧
              BackwardDataGetWorkSpaceSizeGEMM h.dev.deviceName cd wDesc dyDesc ≤
                workSpaceSize then
        (afterFFT.1 ++ [⟨"miopenConvolutionBwdDataAlgoGEMM",
           in_n * ext.kernelTime afterFFT.2 + in_n * ext.kernelTime (afterFFT.2 + 1),
           BackwardDataGetWorkSpaceSizeGEMM h.dev.deviceName cd wDesc dyDesc⟩],
         afterFFT.2 + 2)
      else afterFFT
    else afterFFT
  finishSearch BwdDataAlgoResolver perf0 sorted request afterGemm.2 afterGemm.1
    fun winner =>
      let m := insertK h.bwdData_map (bwdDataFindKey cd dyDesc wDesc dxDesc) (BwdDataAlgoResolver winner)
      { h with bwdData_map := m }

/-- `ConvolutionDescriptor::FindConvBwdDataAlgorithm`. -/
def FindConvBwdDataAlgorithm (ext : Externals) (cd : ConvolutionDescriptor)
    (h : Handle) (dyDesc wDesc dxDesc : TensorDescriptor) (requestAlgoCount : Int)
    (perf0 : List PerfEntry) (workSpaceGiven : Bool) (workSpaceSize : Nat)
    (sorted : List PerfField) : Option FindOutcome :=
  if requestAlgoCount < 1 then none
  else
    match lookupK h.bwdData_map (bwdDataFindKey cd dyDesc wDesc dxDesc) with
    | some cached =>
      if requestAlgoCount = 1 then some ⟨writeAlgo0 perf0 cached, 1, h, 0, []⟩
      else bwdDataSearchBody ext cd h dyDesc wDesc dxDesc requestAlgoCount perf0
        workSpaceGiven workSpaceSize sorted
    | none => bwdDataSearchBody ext cd h dyDesc wDesc dxDesc requestAlgoCount perf0
        workSpaceGiven workSpaceSize sorted

/-- Fingerprint of a backward-weights search problem. -/
def bwdWeightsFindKey (cd : ConvolutionDescriptor)
    (dyDesc xDesc dwDesc : TensorDescriptor) : ConfigKey :=
  ⟨0, dyDesc, xDesc, dwDesc, some (convParamsOf cd)⟩

/-- The cache-miss part of `FindConvBwdWeightsAlgorithm` (source order:
GEMM, then Direct).  The direct candidate is gated on `wei_w >= wei_h`,
the `MIOPEN_DEBUG_CONV_DIRECT` toggle and `IsBwdWeightsDirectSupported`;
a two-pass solution additionally requires a sufficient workspace. -/
def bwdWeightsSearchBody (ext : Externals) (cd : ConvolutionDescriptor) (h : Handle)
    (dyDesc xDesc dwDesc : TensorDescriptor) (request : Int)
    (perf0 : List PerfEntry) (workSpaceGiven : Bool) (workSpaceSize : Nat)
    (sorted : List PerfField) : Option FindOutcome :=
  let in_n : Int := xDesc.n
  let gemmPart : List PerfField × Nat :=
    if cd.mode = .Transpose then
      if dyDesc.dtype = .Float then
        let workspace_req := BackwardWeightsGetWorkSpaceSizeGEMM h.dev.deviceName cd xDesc dwDesc
        -- 1x1 does not require im2col or workspace
        if dwDesc.h = 1 ∧ dwDesc.w = 1 ∧ cd.v = 1 ∧ cd.u = 1 then
          ([⟨"miopenConvolutionBwdWeightsAlgoGEMM", in_n * ext.kernelTime 0, 0⟩], 1)
        else if workSpaceGiven ∧ workspace_req ≤ workSpaceSize then
          ([⟨"miopenConvolutionBwdWeightsAlgoGEMM",
             in_n * (ext.kernelTime 0 + ext.kernelTime 1), workspace_req⟩], 2)
        else ([], 0)
      else ([], 0)
    else
      if dyDesc.dtype = .Float then
        let workspace_req := BackwardWeightsGetWorkSpaceSizeGEMM h.dev.deviceName cd dyDesc dwDesc
        if dwDesc.h = 1 ∧ dwDesc.w = 1 ∧ cd.v = 1 ∧ cd.u = 1 then
          ([⟨"miopenConvolutionBwdWeightsAlgoGEMM", in_n * ext.kernelTime 0, 0⟩], 1)
        else if workSpaceGiven ∧ workspace_req ≤ workSpaceSize then
          ([⟨"miopenConvolutionBwdWeightsAlgoGEMM",
             in_n * (ext.kernelTime 0 + ext.kernelTime 1), workspace_req⟩], 2)
        else ([], 0)
      else ([], 0)
  let afterDirect : List PerfField × Nat :=
    if cd.mode = .Convolution ∧ cd.dilation_h = 1 ∧ cd.dilation_w = 1 ∧
       dwDesc.h ≤ dwDesc.w ∧ ¬ext.convDirectDisabled ∧
       IsBwdWeightsDirectSupported cd dwDesc then
      match ext.wrwConstruct dyDesc xDesc dwDesc with
      | some nk =>
        if nk = 1 then
          (gemmPart.1 ++ [⟨"miopenConvolutionBwdWeightsAlgoDirect",
             ext.kernelTime gemmPart.2, 0⟩], gemmPart.2 + 1)
        else if 2 ≤ nk then
          let workspace_req := BackwardWeightsGetWorkSpaceSizeDirect ext cd dyDesc xDesc dwDesc
          if workSpaceGiven ∧ workspace_req ≤ workSpaceSize then
            (gemmPart.1 ++ [⟨"miopenConvolutionBwdWeightsAlgoDirect",
               ext.kernelTime gemmPart.2 + ext.kernelTime (gemmPart.2 + 1),
               workspace_req⟩], gemmPart.2 + 2)
          else gemmPart
        else gemmPart -- an empty kernel list from the solver never benchmarks
      | none => gemmPart
    else gemmPart
  finishSearch BwdWeightsAlgoResolver perf0 sorted request afterDirect.2 afterDirect.1
    fun winner =>
      let m := insertK h.bwdWeights_map (bwdWeightsFindKey cd dyDesc xDesc dwDesc) (BwdWeightsAlgoResolver winner)
      { h with bwdWeights_map := m }

/-- `ConvolutionDescriptor::FindConvBwdWeightsAlgorithm`. -/
def FindConvBwdWeightsAlgorithm (ext : Externals) (cd : ConvolutionDescriptor)
    (h : Handle) (dyDesc xDesc dwDesc : TensorDescriptor) (requestAlgoCount : Int)
    (perf0 : List PerfEntry) (workSpaceGiven : Bool) (workSpaceSize : Nat)
    (sorted : List PerfField) : Option FindOutcome :=
  if requestAlgoCount < 1 then none
  else
    match lookupK h.bwdWeights_map (bwdWeightsFindKey cd dyDesc xDesc dwDesc) with
    | some cached =>
      if requestAlgoCount = 1 then some ⟨writeAlgo0 perf0 cached, 1, h, 0, []⟩
      else bwdWeightsSearchBody ext cd h dyDesc xDesc dwDesc requestAlgoCount perf0
        workSpaceGiven workSpaceSize sorted
    | none => bwdWeightsSearchBody ext cd h dyDesc xDesc dwDesc requestAlgoCount perf0
        workSpaceGiven workSpaceSize sorted

/-! ## Execution dispatcher

The dispatcher is modelled by the sequence of device operations it
launches.  Numeric-check kernels (`CheckNumerics*`, a purely advisory
diagnostic toggle) are not traced. -/

/-- One launched device operation. -/
inductive Op
  | RunGemm
  | Im2Col
  | Col2Im
  | TransNCHW2CNHW
  | TransCNHW2NCHW
  | SetTensorOp
  | FFTOp
  | Kern (name : String)
deriving DecidableEq, Repr

/-- `miopenConvFwdAlgorithm_t`. -/
inductive FwdAlgo
  | GEMM
  | Direct
  | FFT
  | Winograd
deriving DecidableEq, Repr

/-- `miopenConvBwdWeightsAlgorithm_t`. -/
inductive BwdWeightsAlgo
  | GEMM
  | Direct
deriving DecidableEq, Repr

/-- `n` repetitions of a per-sample operation block. -/
def perSample (n : Nat) (block : List Op) : List Op :=
  (List.replicate n block).flatten

/-- `ConvolutionDescriptor::ConvolutionForward`: validation, then dispatch
on the algorithm identifier in `Convolution` mode; in `Transpose` mode the
algorithm argument is never read and the GEMM path runs per sample
(`RunGemm` into the workspace followed by `Col2Im` unless the filter is
1x1 with unit stride).  `alphaOne`/`betaZero` model the `float_equal`
scale checks; `none` models a thrown error. -/
def ConvolutionForward (ext : Externals) (cd : ConvolutionDescriptor)
    (xDesc wDesc yDesc : TensorDescriptor) (algo : FwdAlgo)
    (alphaOne betaZero : Bool) (workSpaceGiven : Bool) (workSpaceSize : Nat) :
    Option (List Op) :=
  if xDesc.dtype ≠ yDesc.dtype ∨ xDesc.dtype ≠ wDesc.dtype then none
  else if ¬alphaOne ∨ ¬betaZero then none
  else
    match cd.mode with
    | .Convolution =>
      if xDesc.c ≠ wDesc.c then none
      else
        let key := fwdFindKey cd xDesc wDesc yDesc
        match algo with
        | .Direct =>
          match ext.getKernel "miopenConvolutionFwdAlgoDirect" key with
          | none => none
          | some kname =>
            -- if not 11x11
            if kname ≠ "MIOpenCvFwd11x11" then some [Op.Kern kname]
            else if ext.fwdDirect11x11Passes = 1 then some [Op.Kern kname]
            else
              -- second pass kernel, registered under the "x1"-suffixed key
              match ext.getKernel "miopenConvolutionFwdAlgoDirect_pass2" key with
              | none => none
              | some k2 => some [Op.Kern kname, Op.Kern k2]
        | .Winograd =>
          (ext.getKernel "miopenConvolutionFwdAlgoWinograd" key).map
            fun kname => [Op.Kern kname]
        | .GEMM =>
          if (wDesc.h = 1 ∧ wDesc.w = 1 ∧ cd.pad_h = 0 ∧ cd.pad_w = 0 ∧
              cd.dilation_h = 1 ∧ cd.dilation_w = 1) ∧
             ((xDesc.h ≤ 14 ∧ xDesc.w ≤ 14 ∧ cd.u = 1 ∧ cd.v = 1) ∨
              (cd.u = 2 ∧ cd.v = 2)) then
            some [Op.TransNCHW2CNHW, Op.RunGemm, Op.TransCNHW2NCHW]
          else if wDesc.h = 1 ∧ wDesc.w = 1 ∧ cd.pad_h = 0 ∧ cd.pad_w = 0 ∧
                  cd.u = 1 ∧ cd.v = 1 ∧ cd.dilation_w = 1 ∧ cd.dilation_h = 1 then
            some (perSample xDesc.n [Op.RunGemm])
          else
            some (perSample xDesc.n [Op.Im2Col, Op.RunGemm])
        | .FFT =>
          if workSpaceGiven ∧ ext.fwdFFTSize wDesc xDesc yDesc ≤ workSpaceSize then
            some [Op.FFTOp]
          else some []
    | .Transpose =>
      if xDesc.c ≠ wDesc.n then none
      else if wDesc.h ≠ 1 ∨ wDesc.w ≠ 1 ∨ cd.u ≠ 1 ∨ cd.v ≠ 1 then
        some (perSample xDesc.n [Op.RunGemm, Op.Col2Im])
      else
        some (perSample xDesc.n [Op.RunGemm])

/-- `ConvolutionDescriptor::ConvolutionBackwardWeights`: in `Convolution`
mode the `Direct` case is guarded by `wei_w >= wei_h` and otherwise does
nothing; the `GEMM` case zeroes the output then runs per sample. -/
def ConvolutionBackwardWeights (ext : Externals) (cd : ConvolutionDescriptor)
    (dyDesc xDesc dwDesc : TensorDescriptor) (algo : BwdWeightsAlgo)
    (alphaOne betaZero : Bool) : Option (List Op) :=
  if dyDesc.dtype ≠ dwDesc.dtype ∨ dyDesc.dtype ≠ xDesc.dtype then none
  else if dyDesc.n ≠ xDesc.n then none
  else if ¬alphaOne ∨ ¬betaZero then none
  else
    match cd.mode with
    | .Convolution =>
      match algo with
      | .GEMM =>
        if dwDesc.h ≠ 1 ∨ dwDesc.w ≠ 1 ∨ cd.v ≠ 1 ∨ cd.u ≠ 1 then
          some (Op.SetTensorOp :: perSample xDesc.n [Op.Im2Col, Op.RunGemm])
        else
          some (Op.SetTensorOp :: perSample xDesc.n [Op.RunGemm])
      | .Direct =>
        if dwDesc.h ≤ dwDesc.w then
          let key := bwdWeightsFindKey cd dyDesc xDesc dwDesc
          match ext.getKernels "miopenConvolutionBwdWeightsAlgoDirect_Main" key with
          | [] => none -- dereferencing begin() of an empty kernel list: caller misuse
          | [k1] => some [Op.Kern k1]
          | k1 :: k2 :: _ =>
            if k1 = "gcnAsmConv3x3WrW" ∨ k1 = "gcnAsmConv1x1WrW" then some [Op.Kern k1]
            else some [Op.Kern k1, Op.Kern k2]
        else some []
    | .Transpose =>
      if dwDesc.h ≠ 1 ∨ dwDesc.w ≠ 1 ∨ cd.v ≠ 1 ∨ cd.u ≠ 1 then
        some (perSample xDesc.n [Op.Im2Col, Op.RunGemm])
      else
        some (perSample xDesc.n [Op.RunGemm])

/-! ## Spec-side predicates used to settle the claims -/

/-- The eligibility predicate asserted by claim C7: allowlist of square
odd filters and the two rectangular shapes, minus exclusions of 1x1 with
stride > 2, 3x3 with stride > 2, and even-by-even filters. -/
def DirectSupportedClaim (cd : ConvolutionDescriptor)
    (wDesc : TensorDescriptor) : Bool :=
  let k0 := wDesc.h
  let k1 := wDesc.w
  let allowset :=
    (k0 = k1 ∧ (k0 = 1 ∨ k0 = 3 ∨ k0 = 5 ∨ k0 = 7 ∨ k0 = 9 ∨ k0 = 11)) ∨
    (((k0 = 5 ∧ k1 = 10) ∨ (k0 = 5 ∧ k1 = 20)) ∧
      cd.u = 2 ∧ cd.v = 2 ∧ cd.pad_h = 0 ∧ cd.pad_w = 0)
  let exclusions :=
    (k0 = 1 ∧ k1 = 1 ∧ (2 < cd.u ∨ 2 < cd.v)) ∨
    (k0 = 3 ∧ k1 = 3 ∧ (2 < cd.u ∨ 2 < cd.v)) ∨
    (k0 % 2 = 0 ∧ k1 % 2 = 0)
  decide (allowset ∧ ¬exclusions)

/-- Claim C7 amended to match the code: the 1x1 exclusion triggers on
nonzero padding, not on stride > 2 (the stride-based 1x1 exclusion
belongs to the backward-weights predicate). -/
def DirectSupportedAmended (cd : ConvolutionDescriptor)
    (wDesc : TensorDescriptor) : Bool :=
  let k0 := wDesc.h
  let k1 := wDesc.w
  let allowset :=
    (k0 = k1 ∧ (k0 = 1 ∨ k0 = 3 ∨ k0 = 5 ∨ k0 = 7 ∨ k0 = 9 ∨ k0 = 11)) ∨
    (((k0 = 5 ∧ k1 = 10) ∨ (k0 = 5 ∧ k1 = 20)) ∧
      cd.u = 2 ∧ cd.v = 2 ∧ cd.pad_h = 0 ∧ cd.pad_w = 0)
  let exclusions :=
    (k0 = 3 ∧ k1 = 3 ∧ (2 < cd.u ∨ 2 < cd.v)) ∨
    (k0 = 1 ∧ k1 = 1 ∧ (0 < cd.pad_h ∨ 0 < cd.pad_w)) ∨
    (k0 % 2 = 0 ∧ k1 % 2 = 0)
  decide (allowset ∧ ¬exclusions)

/-! ## Concrete instances used by witnesses and counterexamples -/

/-- An all-failure external oracle: no solver solutions, no Winograd, no
direct construction, no FFT, every kernel execution reported at 1 time
unit, no compiled kernels cached. -/
def oracleZero : Externals where
  precompiledBinariesDisabled := false
  convDirectDisabled := false
  findAllSolutions := fun _ _ _ _ _ => some []
  findAllSolutionsWrW := fun _ _ _ _ => some []
  fwdFFTSize := fun _ _ _ => 0
  bwdFFTSize := fun _ _ _ => 0
  winoConstructOk := fun _ _ _ _ => false
  fastBinaryWinograd := false
  directConstruct := fun _ _ _ _ => none
  fwdFFTFindOk := false
  bwdFFTFindOk := false
  wrwConstruct := fun _ _ _ => none
  kernelTime := fun _ => 1
  getKernel := fun _ _ => none
  getKernels := fun _ _ => []
  fwdDirect11x11Passes := 1

/-- `oracleZero` with a single-kernel direct solution available. -/
def oracleDirect1 : Externals :=
  { oracleZero with directConstruct := fun _ _ _ _ => some 1 }

/-- A fresh gfx900 handle with empty caches. -/
def handle0 : Handle := ⟨⟨"gfx900", 64⟩, [], [], [], [], [], []⟩

/-- Convolution, Default padding, zero padding, unit stride and dilation. -/
def cdStride1 : ConvolutionDescriptor := ⟨.Convolution, .Default, 0, 0, 1, 1, 1, 1⟩

/-- Same shapes as `cdStride1` problems but padding 27 and stride 3
(identical forward output shape on a 28x28 input with a 1x1 filter). -/
def cdPad27 : ConvolutionDescriptor := ⟨.Convolution, .Default, 27, 27, 3, 3, 1, 1⟩

/-- A 1x1 filter descriptor with one input and one output channel. -/
def w1x1 : TensorDescriptor := ⟨.Float, 1, 1, 1, 1⟩

/-- A 1-batch single-channel 28x28 tensor. -/
def t28 : TensorDescriptor := ⟨.Float, 1, 1, 28, 28⟩

/-- A 1-batch single-channel 16x16 tensor. -/
def t16 : TensorDescriptor := ⟨.Float, 1, 1, 16, 16⟩

/-- The perf-db entry produced by the 1x1/stride-1 forward GEMM candidate
under `oracleZero` timing. -/
def pfGemmFwd : PerfField := ⟨"miopenConvolutionFwdAlgoGEMM", 1, 0⟩

/-- The perf-db entry produced by the single-kernel direct forward
candidate under `oracleDirect1` timing. -/
def pfDirectFwd : PerfField := ⟨"miopenConvolutionFwdAlgoDirect", 1, 0⟩

/-- A handle whose three algorithm caches contain the fingerprint of the
`(t16, w1x1, t16)` problem under `cdStride1`, with cached winners 3
(forward), 2 (backward-data) and 1 (backward-weights). -/
def handleHitAll : Handle :=
  ⟨⟨"gfx900", 64⟩, [], [], [],
    [(fwdFindKey cdStride1 t16 w1x1 t16, 3)],
    [(bwdDataFindKey cdStride1 t16 w1x1 t16, 2)],
    [(bwdWeightsFindKey cdStride1 t16 w1x1 t16, 1)]⟩

/-- Transpose-mode descriptor with unit stride and dilation. -/
def cdTrans : ConvolutionDescriptor := ⟨.Transpose, .Default, 0, 0, 1, 1, 1, 1⟩

/-- Input for the transpose-forward counterexample. -/
def xT : TensorDescriptor := ⟨.Float, 1, 2, 4, 4⟩

/-- 2x2 (not 1x1) filter for the transpose-forward counterexample. -/
def wT : TensorDescriptor := ⟨.Float, 2, 3, 2, 2⟩

/-- Output for the transpose-forward counterexample. -/
def yT : TensorDescriptor := ⟨.Float, 1, 3, 5, 5⟩

/-- Backward-weights gradient tensor for the C9 scenario. -/
def dyC9 : TensorDescriptor := ⟨.Float, 1, 4, 2, 2⟩

/-- Backward-weights input tensor for the C9 scenario. -/
def xC9 : TensorDescriptor := ⟨.Float, 1, 2, 6, 6⟩

/-- A filter whose kernel width (3) is smaller than its height (5). -/
def dwC9 : TensorDescriptor := ⟨.Float, 4, 2, 5, 3⟩

/-- The outcome of the backward-weights search in the C9 scenario: only
the GEMM candidate is benchmarked. -/
def oC9 : FindOutcome :=
  ⟨[⟨0, 2, 480⟩], 1,
    { handle0 with bwdWeights_map := [(bwdWeightsFindKey cdStride1 dyC9 xC9 dwC9, 0)] },
    2, [⟨"miopenConvolutionBwdWeightsAlgoGEMM", 2, 480⟩]⟩

/-- The outcome of the forward search in the C4 tie scenario: GEMM is
discovered first, Direct second, both at time 1; the supplied sort output
ranks Direct first, which `std::sort` permits. -/
def oC4 : FindOutcome :=
  ⟨[⟨1, 1, 0⟩, ⟨0, 1, 0⟩], 2,
    { handle0 with fwd_map := [(fwdFindKey cdStride1 t16 w1x1 t16, 1)] },
    2, [pfGemmFwd, pfDirectFwd]⟩

/-! ## Helper lemmas -/

/-- Truncating and flooring division agree once the result is clamped to
be at least 1 (for a positive divisor): they agree on nonnegative
numerators, and on negative numerators both sides clamp to 1. -/
theorem max_one_tdiv_eq_max_one_fdiv (a b : Int) (hb : 0 < b) :
    max 1 (a.tdiv b + 1) = max 1 (a.fdiv b + 1) := by
  rcases le_or_lt 0 a with ha | ha
  · rw [Int.tdiv_eq_ediv ha (le_of_lt hb), Int.fdiv_eq_ediv _ (le_of_lt hb)]
  · have h1 : a.tdiv b ≤ 0 := by
      have hpos := Int.tdiv_nonneg (a := -a) (b := b) (by omega) (le_of_lt hb)
      rw [Int.neg_tdiv] at hpos
      omega
    have h2 : a.fdiv b ≤ 0 := by
      rw [Int.fdiv_eq_ediv _ (le_of_lt hb)]
      calc a / b ≤ 0 / b := Int.ediv_le_ediv hb (le_of_lt ha)
        _ = 0 := Int.zero_ediv b
    omega

/-- `sizeT` is the identity on natural values below 2^64. -/
theorem sizeT_natCast (n : Nat) (hn : n < 2 ^ 64) : sizeT (n : Int) = n := by
  unfold sizeT
  rw [Int.emod_eq_of_lt (by positivity) (by exact_mod_cast hn)]
  exact Int.toNat_natCast n

/-- Unfolding of `GetForwardOutputDim` in Convolution mode with Default
padding, under matching types and channels. -/
theorem getForwardOutputDim_conv_default (cd : ConvolutionDescriptor)
    (inp fil : TensorDescriptor) (ht : inp.dtype = fil.dtype) (hc : inp.c = fil.c)
    (hm : cd.mode = .Convolution) (hp : cd.paddingMode = .Default) :
    GetForwardOutputDim cd inp fil =
      some ((inp.n : Int), (fil.n : Int),
        max 1 (((inp.h : Int) - (1 + cd.dilation_h * ((fil.h : Int) - 1)) +
          2 * cd.pad_h).tdiv cd.u + 1),
        max 1 (((inp.w : Int) - (1 + cd.dilation_w * ((fil.w : Int) - 1)) +
          2 * cd.pad_w).tdiv cd.v + 1)) := by
  simp [GetForwardOutputDim, ht, hc, hm, hp]

/-! ## Claim C1 -/

/-- Claim C1: for every rank-4 input and filter descriptor with matching
element types and channel counts, in Convolution mode with Default
padding, `GetForwardOutputDim` returns batch = input batch, output
channels = the filter's output-channel axis, and each spatial dimension
`floor((in - (1 + dilation*(k-1)) + 2*pad) / stride) + 1` clamped to be
at least 1. -/
theorem C1_forward_output_dim (cd : ConvolutionDescriptor)
    (inp fil : TensorDescriptor)
    (ht : inp.dtype = fil.dtype) (hc : inp.c = fil.c)
    (hm : cd.mode = .Convolution) (hp : cd.paddingMode = .Default)
    (hcd : cd.WellFormed) :
    GetForwardOutputDim cd inp fil =
      some ((inp.n : Int), (fil.n : Int),
        max 1 (((inp.h : Int) - (1 + cd.dilation_h * ((fil.h : Int) - 1)) +
          2 * cd.pad_h).fdiv cd.u + 1),
        max 1 (((inp.w : Int) - (1 + cd.dilation_w * ((fil.w : Int) - 1)) +
          2 * cd.pad_w).fdiv cd.v + 1)) := by
  rw [getForwardOutputDim_conv_default cd inp fil ht hc hm hp,
    max_one_tdiv_eq_max_one_fdiv _ _ hcd.2.2.1,
    max_one_tdiv_eq_max_one_fdiv _ _ hcd.2.2.2.1]

/-- The spec's concrete scenario: H = W = 224, 11x11 filter, stride 4,
pad 0 gives output spatial dims 54. -/
theorem C1_witness :
    GetForwardOutputDim ⟨.Convolution, .Default, 0, 0, 4, 4, 1, 1⟩
      ⟨.Float, 1, 3, 224, 224⟩ ⟨.Float, 96, 3, 11, 11⟩ = some (1, 96, 54, 54) := by
  have h := C1_forward_output_dim ⟨.Convolution, .Default, 0, 0, 4, 4, 1, 1⟩
    ⟨.Float, 1, 3, 224, 224⟩ ⟨.Float, 96, 3, 11, 11⟩ rfl rfl rfl rfl
    ⟨by decide, by decide, by decide, by decide, by decide, by decide, rfl⟩
  rw [h]
  decide

/-! ## Claim C2 -/

/-- Claim C2: for every valid (input, filter) pair with matching element
types and channels, in Convolution mode with Default padding, stride 1
and dilation 1, `GetBackwardOutputDim` applied to the forward output
shape and the same filter reproduces the input's spatial extent. -/
theorem C2_round_trip (cd : ConvolutionDescriptor) (x w : TensorDescriptor)
    (ht : x.dtype = w.dtype) (hc : x.c = w.c)
    (hm : cd.mode = .Convolution) (hp : cd.paddingMode = .Default)
    (hu : cd.u = 1) (hv : cd.v = 1)
    (hdh : cd.dilation_h = 1) (hdw : cd.dilation_w = 1)
    (hgeomh : (w.h : Int) ≤ (x.h : Int) + 2 * cd.pad_h)
    (hgeomw : (w.w : Int) ≤ (x.w : Int) + 2 * cd.pad_w)
    (hbh : x.h < 2 ^ 64) (hbw : x.w < 2 ^ 64) :
    (GetForwardOutputTensor cd x w).bind (fun y => GetBackwardOutputDim cd y w) =
      some (x.n, w.c, x.h, x.w) := by
  have hfwd := getForwardOutputDim_conv_default cd x w ht hc hm hp
  rw [hu, hv, hdh, hdw] at hfwd
  have hmaxh : max 1 (((x.h : Int) - (1 + 1 * ((w.h : Int) - 1)) +
      2 * cd.pad_h).tdiv 1 + 1) = (x.h : Int) + 2 * cd.pad_h - (w.h : Int) + 1 := by
    rw [Int.tdiv_one]; omega
  have hmaxw : max 1 (((x.w : Int) - (1 + 1 * ((w.w : Int) - 1)) +
      2 * cd.pad_w).tdiv 1 + 1) = (x.w : Int) + 2 * cd.pad_w - (w.w : Int) + 1 := by
    rw [Int.tdiv_one]; omega
  rw [hmaxh, hmaxw] at hfwd
  unfold GetForwardOutputTensor
  rw [hfwd]
  simp only [Option.map_some', Option.some_bind]
  unfold GetBackwardOutputDim
  have hA : (0 : Int) ≤ (x.h : Int) + 2 * cd.pad_h - (w.h : Int) + 1 := by omega
  have hB : (0 : Int) ≤ (x.w : Int) + 2 * cd.pad_w - (w.w : Int) + 1 := by omega
  rw [if_neg (by simp [ht]), if_neg (by simp)]
  simp only [Int.toNat_natCast, Int.toNat_of_nonneg hA, Int.toNat_of_nonneg hB]
  have hsh : cd.u * ((((x.h : Int) + 2 * cd.pad_h - (w.h : Int) + 1)) - 1) -
      2 * cd.pad_h + (w.h : Int) = (x.h : Int) := by rw [hu]; ring
  have hsw : cd.v * ((((x.w : Int) + 2 * cd.pad_w - (w.w : Int) + 1)) - 1) -
      2 * cd.pad_w + (w.w : Int) = (x.w : Int) := by rw [hv]; ring
  rw [hsh, hsw, sizeT_natCast x.h hbh, sizeT_natCast x.w hbw]

/-- Witness for C2 at a concrete input: 8x8 input, 3x3 filter, pad 1. -/
theorem C2_witness :
    (GetForwardOutputTensor ⟨.Convolution, .Default, 1, 1, 1, 1, 1, 1⟩
        ⟨.Float, 1, 3, 8, 8⟩ ⟨.Float, 4, 3, 3, 3⟩).bind
      (fun y => GetBackwardOutputDim ⟨.Convolution, .Default, 1, 1, 1, 1, 1, 1⟩ y
        ⟨.Float, 4, 3, 3, 3⟩) = some (1, 3, 8, 8) :=
  C2_round_trip ⟨.Convolution, .Default, 1, 1, 1, 1, 1, 1⟩
    ⟨.Float, 1, 3, 8, 8⟩ ⟨.Float, 4, 3, 3, 3⟩ rfl rfl rfl rfl rfl rfl rfl rfl
    (by decide) (by decide) (by decide) (by decide)

/-! ## Claim C6 -/

/-- Counterexample to claim C6: for a 1x1 filter with stride 1 and zero
padding, the backward-weights GEMM workspace function does NOT return 0 —
it has no 1x1 shortcut and returns the full im2col buffer size (here 72
bytes for filter (4,2,1,1) and gradient (1,4,3,3) on a non-gfx803
device). -/
theorem C6_counterexample :
    BackwardWeightsGetWorkSpaceSizeGEMM "gfx900"
      ⟨.Convolution, .Default, 0, 0, 1, 1, 1, 1⟩
      ⟨.Float, 1, 4, 3, 3⟩ ⟨.Float, 4, 2, 1, 1⟩ = 72 ∧ (72 : Nat) ≠ 0 := by
  decide

/-- Claim C6 amended: for a 1x1 filter with stride 1 and zero padding the
forward and backward-data GEMM workspace functions return 0; the
backward-weights GEMM function has no such special case and (off the
gfx803 downgrade) returns `filter_c * out_h * out_w * elemSize`. -/
theorem C6_gemm_workspace_1x1 (dev : String) (cd : ConvolutionDescriptor)
    (w y dy dy2 dw : TensorDescriptor)
    (hw : w.h = 1 ∧ w.w = 1) (hdw : dw.h = 1 ∧ dw.w = 1)
    (hcd : cd.u = 1 ∧ cd.v = 1 ∧ cd.pad_h = 0 ∧ cd.pad_w = 0) :
    ForwardGetWorkSpaceSizeGEMM dev cd w y = 0 ∧
    BackwardDataGetWorkSpaceSizeGEMM dev cd w dy = 0 ∧
    (dev ≠ "gfx803" →
      BackwardWeightsGetWorkSpaceSizeGEMM dev cd dy2 dw =
        dw.c * dy2.h * dy2.w * GetTypeSize dy2.dtype) := by
  obtain ⟨hw1, hw2⟩ := hw
  obtain ⟨hu, hv, hph, hpw⟩ := hcd
  refine ⟨?_, ?_, fun hdev => ?_⟩
  · simp [ForwardGetWorkSpaceSizeGEMM, hw1, hw2, hu, hv, hph, hpw]
  · simp [BackwardDataGetWorkSpaceSizeGEMM, hw1, hw2, hu, hv, hph, hpw]
  · simp [BackwardWeightsGetWorkSpaceSizeGEMM, hdw.1, hdw.2, hdev]

/-- Witness for the amended C6 at concrete descriptors. -/
theorem C6_witness :
    ForwardGetWorkSpaceSizeGEMM "gfx900" ⟨.Convolution, .Default, 0, 0, 1, 1, 1, 1⟩
      ⟨.Float, 4, 2, 1, 1⟩ ⟨.Float, 1, 4, 3, 3⟩ = 0 ∧
    BackwardDataGetWorkSpaceSizeGEMM "gfx900" ⟨.Convolution, .Default, 0, 0, 1, 1, 1, 1⟩
      ⟨.Float, 4, 2, 1, 1⟩ ⟨.Float, 1, 4, 3, 3⟩ = 0 ∧
    ((("gfx900" : String) ≠ "gfx803") →
      BackwardWeightsGetWorkSpaceSizeGEMM "gfx900" ⟨.Convolution, .Default, 0, 0, 1, 1, 1, 1⟩
        ⟨.Float, 1, 4, 3, 3⟩ ⟨.Float, 4, 2, 1, 1⟩ = 2 * 3 * 3 * 4) :=
  C6_gemm_workspace_1x1 "gfx900" ⟨.Convolution, .Default, 0, 0, 1, 1, 1, 1⟩
    ⟨.Float, 4, 2, 1, 1⟩ ⟨.Float, 1, 4, 3, 3⟩ ⟨.Float, 1, 4, 3, 3⟩
    ⟨.Float, 1, 4, 3, 3⟩ ⟨.Float, 4, 2, 1, 1⟩
    ⟨rfl, rfl⟩ ⟨rfl, rfl⟩ ⟨rfl, rfl, rfl, rfl⟩

/-! ## Claim C7 -/

/-- The allowlist of `IsDirectSupported` written pairwise in the code is
the claim's "square with odd side in
the set of 1, 3, 5, 7, 9, 11, or 5x10 / 5x20 under stride 2 with zero
padding". -/
theorem supportedFilters_iff (u v p q : Int) (k0 k1 : Nat) :
    ((k0 = 1 ∧ k1 = 1) ∨ (k0 = 3 ∧ k1 = 3) ∨ (k0 = 5 ∧ k1 = 5) ∨ (k0 = 7 ∧ k1 = 7) ∨
     (k0 = 9 ∧ k1 = 9) ∨ (k0 = 11 ∧ k1 = 11) ∨
     (k0 = 5 ∧ k1 = 10 ∧ u = 2 ∧ v = 2 ∧ p = 0 ∧ q = 0) ∨
     (k0 = 5 ∧ k1 = 20 ∧ u = 2 ∧ v = 2 ∧ p = 0 ∧ q = 0)) ↔
    ((k0 = k1 ∧ (k0 = 1 ∨ k0 = 3 ∨ k0 = 5 ∨ k0 = 7 ∨ k0 = 9 ∨ k0 = 11)) ∨
     (((k0 = 5 ∧ k1 = 10) ∨ (k0 = 5 ∧ k1 = 20)) ∧
       u = 2 ∧ v = 2 ∧ p = 0 ∧ q = 0)) := by
  constructor
  · rintro (⟨h0, h1⟩ | ⟨h0, h1⟩ | ⟨h0, h1⟩ | ⟨h0, h1⟩ | ⟨h0, h1⟩ | ⟨h0, h1⟩ |
      ⟨h0, h1, hr⟩ | ⟨h0, h1, hr⟩)
    · exact Or.inl ⟨by omega, Or.inl h0⟩
    · exact Or.inl ⟨by omega, Or.inr (Or.inl h0)⟩
    · exact Or.inl ⟨by omega, Or.inr (Or.inr (Or.inl h0))⟩
    · exact Or.inl ⟨by omega, Or.inr (Or.inr (Or.inr (Or.inl h0)))⟩
    · exact Or.inl ⟨by omega, Or.inr (Or.inr (Or.inr (Or.inr (Or.inl h0))))⟩
    · exact Or.inl ⟨by omega, Or.inr (Or.inr (Or.inr (Or.inr (Or.inr h0))))⟩
    · exact Or.inr ⟨Or.inl ⟨h0, h1⟩, hr⟩
    · exact Or.inr ⟨Or.inr ⟨h0, h1⟩, hr⟩
  · rintro (⟨heq, h | h | h | h | h | h⟩ | ⟨⟨h0, h1⟩ | ⟨h0, h1⟩, hr⟩)
    · exact Or.inl ⟨h, by omega⟩
    · exact Or.inr (Or.inl ⟨h, by omega⟩)
    · exact Or.inr (Or.inr (Or.inl ⟨h, by omega⟩))
    · exact Or.inr (Or.inr (Or.inr (Or.inl ⟨h, by omega⟩)))
    · exact Or.inr (Or.inr (Or.inr (Or.inr (Or.inl ⟨h, by omega⟩))))
    · exact Or.inr (Or.inr (Or.inr (Or.inr (Or.inr (Or.inl ⟨h, by omega⟩)))))
    · exact Or.inr (Or.inr (Or.inr (Or.inr (Or.inr (Or.inr (Or.inl
        ⟨h0, h1, hr.1, hr.2.1, hr.2.2.1, hr.2.2.2⟩))))))
    · exact Or.inr (Or.inr (Or.inr (Or.inr (Or.inr (Or.inr (Or.inr
        ⟨h0, h1, hr.1, hr.2.1, hr.2.2.1, hr.2.2.2⟩))))))

/-- Counterexample to claim C7: a 1x1 filter with stride 3 and zero
padding.  The claim's exclusion list rules it out (1x1 with stride > 2),
but `IsDirectSupported` accepts it — the code's 1x1 exclusion is on
nonzero padding, not stride. -/
theorem C7_counterexample :
    IsDirectSupported ⟨.Convolution, .Default, 0, 0, 3, 3, 1, 1⟩
      ⟨.Float, 8, 8, 1, 1⟩ = true ∧
    DirectSupportedClaim ⟨.Convolution, .Default, 0, 0, 3, 3, 1, 1⟩
      ⟨.Float, 8, 8, 1, 1⟩ = false := by
  decide

/-- Claim C7 amended: `IsDirectSupported` accepts exactly the allowlist
(square odd side in {1,3,5,7,9,11}, or 5x10 / 5x20 with stride 2 and zero
padding) minus the exclusions 3x3-with-stride>2, 1x1-with-nonzero-padding
and even-by-even; in particular it is false for any 4x4 filter and true
for 3x3 with stride 1. -/
theorem C7_direct_supported (cd : ConvolutionDescriptor) (w : TensorDescriptor) :
    IsDirectSupported cd w = DirectSupportedAmended cd w ∧
    (w.h = 4 ∧ w.w = 4 → IsDirectSupported cd w = false) ∧
    (w.h = 3 ∧ w.w = 3 ∧ cd.u = 1 ∧ cd.v = 1 → IsDirectSupported cd w = true) := by
  refine ⟨?_, fun hf => ?_, fun ht => ?_⟩
  · unfold IsDirectSupported DirectSupportedAmended
    exact decide_eq_decide.mpr
      (and_congr_left' (supportedFilters_iff cd.u cd.v cd.pad_h cd.pad_w w.h w.w))
  · obtain ⟨h4, h4w⟩ := hf
    simp only [IsDirectSupported, decide_eq_false_iff_not]
    rintro ⟨⟨a, b⟩ | ⟨a, b⟩ | ⟨a, b⟩ | ⟨a, b⟩ | ⟨a, b⟩ | ⟨a, b⟩ |
      ⟨a, b, hr⟩ | ⟨a, b, hr⟩, _⟩ <;> omega
  · obtain ⟨h3, h3w, hu, hv⟩ := ht
    simp only [IsDirectSupported, decide_eq_true_eq]
    refine ⟨Or.inr (Or.inl ⟨h3, h3w⟩), ?_⟩
    rintro (⟨_, _, hs⟩ | ⟨ha, _⟩ | ⟨he, _⟩) <;> omega

/-- Witness for the amended C7 at a 3x3 stride-1 filter. -/
theorem C7_witness :
    IsDirectSupported ⟨.Convolution, .Default, 1, 1, 1, 1, 1, 1⟩
        ⟨.Float, 8, 8, 3, 3⟩ =
      DirectSupportedAmended ⟨.Convolution, .Default, 1, 1, 1, 1, 1, 1⟩
        ⟨.Float, 8, 8, 3, 3⟩ ∧
    IsDirectSupported ⟨.Convolution, .Default, 1, 1, 1, 1, 1, 1⟩
      ⟨.Float, 8, 8, 3, 3⟩ = true :=
  ⟨(C7_direct_supported ⟨.Convolution, .Default, 1, 1, 1, 1, 1, 1⟩
      ⟨.Float, 8, 8, 3, 3⟩).1,
   (C7_direct_supported ⟨.Convolution, .Default, 1, 1, 1, 1, 1, 1⟩
      ⟨.Float, 8, 8, 3, 3⟩).2.2 ⟨rfl, rfl, rfl, rfl⟩⟩

/-! ## Helper lemmas about the search engine -/

/-- On a forward cache hit with exactly one requested result the call
returns immediately: only the first perf entry's algorithm field is
written, `*returnedAlgoCount` is 1, no kernel runs, the handle is
unchanged. -/
theorem findConvFwd_hit (ext : Externals) (cd : ConvolutionDescriptor) (h : Handle)
    (x w y : TensorDescriptor) (perf0 : List PerfEntry) (wsG : Bool) (wsS : Nat)
    (sorted : List PerfField) (cached : Int)
    (hhit : lookupK h.fwd_map (fwdFindKey cd x w y) = some cached) :
    FindConvFwdAlgorithm ext cd h x w y 1 perf0 wsG wsS sorted =
      some ⟨writeAlgo0 perf0 cached, 1, h, 0, []⟩ := by
  unfold FindConvFwdAlgorithm
  rw [if_neg (by omega), hhit]
  simp

/-- Backward-data version of `findConvFwd_hit`. -/
theorem findConvBwdData_hit (ext : Externals) (cd : ConvolutionDescriptor) (h : Handle)
    (dy w dx : TensorDescriptor) (perf0 : List PerfEntry) (wsG : Bool) (wsS : Nat)
    (sorted : List PerfField) (cached : Int)
    (hhit : lookupK h.bwdData_map (bwdDataFindKey cd dy w dx) = some cached) :
    FindConvBwdDataAlgorithm ext cd h dy w dx 1 perf0 wsG wsS sorted =
      some ⟨writeAlgo0 perf0 cached, 1, h, 0, []⟩ := by
  unfold FindConvBwdDataAlgorithm
  rw [if_neg (by omega), hhit]
  simp

/-- Backward-weights version of `findConvFwd_hit`. -/
theorem findConvBwdWeights_hit (ext : Externals) (cd : ConvolutionDescriptor) (h : Handle)
    (dy x dw : TensorDescriptor) (perf0 : List PerfEntry) (wsG : Bool) (wsS : Nat)
    (sorted : List PerfField) (cached : Int)
    (hhit : lookupK h.bwdWeights_map (bwdWeightsFindKey cd dy x dw) = some cached) :
    FindConvBwdWeightsAlgorithm ext cd h dy x dw 1 perf0 wsG wsS sorted =
      some ⟨writeAlgo0 perf0 cached, 1, h, 0, []⟩ := by
  unfold FindConvBwdWeightsAlgorithm
  rw [if_neg (by omega), hhit]
  simp

/-- Unless the call is a single-request cache hit, the forward search
falls through to the full benchmarking body. -/
theorem findConvFwd_eq_body (ext : Externals) (cd : ConvolutionDescriptor) (h : Handle)
    (x w y : TensorDescriptor) (request : Int) (perf0 : List PerfEntry)
    (wsG : Bool) (wsS : Nat) (sorted : List PerfField)
    (hreq : 1 ≤ request)
    (hmiss : lookupK h.fwd_map (fwdFindKey cd x w y) = none ∨ request ≠ 1) :
    FindConvFwdAlgorithm ext cd h x w y request perf0 wsG wsS sorted =
      fwdSearchBody ext cd h x w y request perf0 wsG wsS sorted := by
  unfold FindConvFwdAlgorithm
  rw [if_neg (by omega)]
  cases hl : lookupK h.fwd_map (fwdFindKey cd x w y) with
  | none => rfl
  | some cached =>
    rcases hmiss with hm | hm
    · rw [hl] at hm; exact absurd hm (by simp)
    · simp [hm]

/-- Backward-data version of `findConvFwd_eq_body`. -/
theorem findConvBwdData_eq_body (ext : Externals) (cd : ConvolutionDescriptor)
    (h : Handle) (dy w dx : TensorDescriptor) (request : Int) (perf0 : List PerfEntry)
    (wsG : Bool) (wsS : Nat) (sorted : List PerfField)
    (hreq : 1 ≤ request)
    (hmiss : lookupK h.bwdData_map (bwdDataFindKey cd dy w dx) = none ∨ request ≠ 1) :
    FindConvBwdDataAlgorithm ext cd h dy w dx request perf0 wsG wsS sorted =
      bwdDataSearchBody ext cd h dy w dx request perf0 wsG wsS sorted := by
  unfold FindConvBwdDataAlgorithm
  rw [if_neg (by omega)]
  cases hl : lookupK h.bwdData_map (bwdDataFindKey cd dy w dx) with
  | none => rfl
  | some cached =>
    rcases hmiss with hm | hm
    · rw [hl] at hm; exact absurd hm (by simp)
    · simp [hm]

/-- Backward-weights version of `findConvFwd_eq_body`. -/
theorem findConvBwdWeights_eq_body (ext : Externals) (cd : ConvolutionDescriptor)
    (h : Handle) (dy x dw : TensorDescriptor) (request : Int) (perf0 : List PerfEntry)
    (wsG : Bool) (wsS : Nat) (sorted : List PerfField)
    (hreq : 1 ≤ request)
    (hmiss : lookupK h.bwdWeights_map (bwdWeightsFindKey cd dy x dw) = none ∨ request ≠ 1) :
    FindConvBwdWeightsAlgorithm ext cd h dy x dw request perf0 wsG wsS sorted =
      bwdWeightsSearchBody ext cd h dy x dw request perf0 wsG wsS sorted := by
  unfold FindConvBwdWeightsAlgorithm
  rw [if_neg (by omega)]
  cases hl : lookupK h.bwdWeights_map (bwdWeightsFindKey cd dy x dw) with
  | none => rfl
  | some cached =>
    rcases hmiss with hm | hm
    · rw [hl] at hm; exact absurd hm (by simp)
    · simp [hm]

/-! ## Claim C5 -/

/-- Claim C5 (code bug): the forward workspace-size cache key is built
without `setConvDescr`, so it ignores padding/stride/dilation.  With the
shapes fixed at a 28x28 single-channel tensor and a 1x1 filter, the
1x1/stride-1/pad-0 descriptor computes workspace 0 and caches it; the
pad-27/stride-3 descriptor — a semantically different problem with the
same shapes — then hits that entry and returns 0, while its fresh
computation (first conjunct from an empty cache) is 3136. -/
theorem C5_workspace_cache_collision :
    (ForwardGetWorkSpaceSize oracleZero cdStride1 handle0 w1x1 t28 t28).1 = 0 ∧
    (ForwardGetWorkSpaceSize oracleZero cdPad27
      (ForwardGetWorkSpaceSize oracleZero cdStride1 handle0 w1x1 t28 t28).2
      w1x1 t28 t28).1 = 0 ∧
    (ForwardGetWorkSpaceSize oracleZero cdPad27 handle0 w1x1 t28 t28).1 = 3136 ∧
    cdStride1 ≠ cdPad27 := by
  decide

/-! ## Claim C3 -/

/-- Counterexample to claim C3: the forward algorithm cache contains the
problem's fingerprint (with cached winner 3), yet a search requesting 2
results benchmarks a candidate (`runs = 1`, the GEMM kernel) and returns
the freshly measured GEMM winner, not the cached id. -/
theorem C3_counterexample :
    lookupK handleHitAll.fwd_map (fwdFindKey cdStride1 t16 w1x1 t16) = some 3 ∧
    IsStdSortOutput [pfGemmFwd] [pfGemmFwd] ∧
    FindConvFwdAlgorithm oracleZero cdStride1 handleHitAll t16 w1x1 t16 2
        [⟨7, 9, 9⟩, ⟨7, 9, 9⟩] false 0 [pfGemmFwd] =
      some ⟨[⟨0, 1, 0⟩, ⟨7, 9, 9⟩], 1, handleHitAll, 1, [pfGemmFwd]⟩ ∧
    (1 : Nat) ≠ 0 := by
  refine ⟨by decide, ⟨List.Perm.refl _, by decide⟩, by decide, by decide⟩

/-- Claim C3 amended: on a cache hit the cached winner is returned with
no benchmarking only when exactly one result is requested (then
`returnedAlgoCount` is set to 1 and nothing else happens); when more than
one result is requested the cached entry is ignored and the full
benchmarking search runs. -/
theorem C3_cache_hit_behavior (ext : Externals) (cd : ConvolutionDescriptor)
    (h : Handle) (a b c : TensorDescriptor) (perf0 : List PerfEntry)
    (wsG : Bool) (wsS : Nat) (sorted : List PerfField) (cached : Int)
    (request : Int) :
    (lookupK h.fwd_map (fwdFindKey cd a b c) = some cached →
      FindConvFwdAlgorithm ext cd h a b c 1 perf0 wsG wsS sorted =
        some ⟨writeAlgo0 perf0 cached, 1, h, 0, []⟩) ∧
    (lookupK h.bwdData_map (bwdDataFindKey cd a b c) = some cached →
      FindConvBwdDataAlgorithm ext cd h a b c 1 perf0 wsG wsS sorted =
        some ⟨writeAlgo0 perf0 cached, 1, h, 0, []⟩) ∧
    (lookupK h.bwdWeights_map (bwdWeightsFindKey cd a b c) = some cached →
      FindConvBwdWeightsAlgorithm ext cd h a b c 1 perf0 wsG wsS sorted =
        some ⟨writeAlgo0 perf0 cached, 1, h, 0, []⟩) ∧
    (1 < request →
      FindConvFwdAlgorithm ext cd h a b c request perf0 wsG wsS sorted =
        fwdSearchBody ext cd h a b c request perf0 wsG wsS sorted ∧
      FindConvBwdDataAlgorithm ext cd h a b c request perf0 wsG wsS sorted =
        bwdDataSearchBody ext cd h a b c request perf0 wsG wsS sorted ∧
      FindConvBwdWeightsAlgorithm ext cd h a b c request perf0 wsG wsS sorted =
        bwdWeightsSearchBody ext cd h a b c request perf0 wsG wsS sorted) := by
  refine ⟨findConvFwd_hit ext cd h a b c perf0 wsG wsS sorted cached,
    findConvBwdData_hit ext cd h a b c perf0 wsG wsS sorted cached,
    findConvBwdWeights_hit ext cd h a b c perf0 wsG wsS sorted cached,
    fun hr => ⟨?_, ?_, ?_⟩⟩
  · exact findConvFwd_eq_body ext cd h a b c request perf0 wsG wsS sorted
      (by omega) (Or.inr (by omega))
  · exact findConvBwdData_eq_body ext cd h a b c request perf0 wsG wsS sorted
      (by omega) (Or.inr (by omega))
  · exact findConvBwdWeights_eq_body ext cd h a b c request perf0 wsG wsS sorted
      (by omega) (Or.inr (by omega))

/-- Witness for the amended C3 at the concrete hit state. -/
theorem C3_witness :
    (FindConvFwdAlgorithm oracleZero cdStride1 handleHitAll t16 w1x1 t16 1
        [⟨7, 9, 9⟩] false 0 [] =
      some ⟨writeAlgo0 [⟨7, 9, 9⟩] 3, 1, handleHitAll, 0, []⟩) ∧
    (FindConvBwdDataAlgorithm oracleZero cdStride1 handleHitAll t16 w1x1 t16 1
        [⟨7, 9, 9⟩] false 0 [] =
      some ⟨writeAlgo0 [⟨7, 9, 9⟩] 2, 1, handleHitAll, 0, []⟩) ∧
    (FindConvBwdWeightsAlgorithm oracleZero cdStride1 handleHitAll t16 w1x1 t16 1
        [⟨7, 9, 9⟩] false 0 [] =
      some ⟨writeAlgo0 [⟨7, 9, 9⟩] 1, 1, handleHitAll, 0, []⟩) ∧
    (FindConvFwdAlgorithm oracleZero cdStride1 handleHitAll t16 w1x1 t16 2
        [⟨7, 9, 9⟩] false 0 [] =
      fwdSearchBody oracleZero cdStride1 handleHitAll t16 w1x1 t16 2
        [⟨7, 9, 9⟩] false 0 []) :=
  ⟨(C3_cache_hit_behavior oracleZero cdStride1 handleHitAll t16 w1x1 t16
      [⟨7, 9, 9⟩] false 0 [] 3 2).1 (by decide),
   (C3_cache_hit_behavior oracleZero cdStride1 handleHitAll t16 w1x1 t16
      [⟨7, 9, 9⟩] false 0 [] 2 2).2.1 (by decide),
   (C3_cache_hit_behavior oracleZero cdStride1 handleHitAll t16 w1x1 t16
      [⟨7, 9, 9⟩] false 0 [] 1 2).2.2.1 (by decide),
   ((C3_cache_hit_behavior oracleZero cdStride1 handleHitAll t16 w1x1 t16
      [⟨7, 9, 9⟩] false 0 [] 3 2).2.2.2 (by decide)).1⟩

/-! ## Claim C10 -/

/-- `writeAlgo0` leaves every entry's time unchanged. -/
theorem writeAlgo0_map_time (l : List PerfEntry) (a : Int) :
    (writeAlgo0 l a).map PerfEntry.time = l.map PerfEntry.time := by
  cases l <;> rfl

/-- `writeAlgo0` leaves every entry's memory unchanged. -/
theorem writeAlgo0_map_memory (l : List PerfEntry) (a : Int) :
    (writeAlgo0 l a).map PerfEntry.memory = l.map PerfEntry.memory := by
  cases l <;> rfl

/-- `writeAlgo0` leaves every entry but the first entirely unchanged. -/
theorem writeAlgo0_drop_one (l : List PerfEntry) (a : Int) :
    (writeAlgo0 l a).drop 1 = l.drop 1 := by
  cases l <;> rfl

/-- `writeAlgo0` sets the first entry's algorithm field (when there is a
first entry). -/
theorem writeAlgo0_head_algo (l : List PerfEntry) (a : Int) :
    (writeAlgo0 l a).head?.map PerfEntry.algo = l.head?.map fun _ => a := by
  cases l <;> rfl

/-- Claim C10: on an algorithm-cache hit with exactly one requested
result, each search call sets `returnedAlgoCount` to 1 and writes only
the algorithm-identifier field of the first perf entry: every entry's
time and memory fields are unmodified, entries past the first are
untouched, and the first entry's algorithm field becomes the cached id. -/
theorem C10_hit_writes_only_algo (ext : Externals) (cd : ConvolutionDescriptor)
    (h : Handle) (a b c : TensorDescriptor) (perf0 : List PerfEntry)
    (wsG : Bool) (wsS : Nat) (sorted : List PerfField) (cached : Int) :
    (lookupK h.fwd_map (fwdFindKey cd a b c) = some cached →
      (FindConvFwdAlgorithm ext cd h a b c 1 perf0 wsG wsS sorted).map
        (fun o => (o.returnedAlgoCount, o.perf.map PerfEntry.time,
          o.perf.map PerfEntry.memory, o.perf.drop 1,
          o.perf.head?.map PerfEntry.algo)) =
      some (1, perf0.map PerfEntry.time, perf0.map PerfEntry.memory,
        perf0.drop 1, perf0.head?.map fun _ => cached)) ∧
    (lookupK h.bwdData_map (bwdDataFindKey cd a b c) = some cached →
      (FindConvBwdDataAlgorithm ext cd h a b c 1 perf0 wsG wsS sorted).map
        (fun o => (o.returnedAlgoCount, o.perf.map PerfEntry.time,
          o.perf.map PerfEntry.memory, o.perf.drop 1,
          o.perf.head?.map PerfEntry.algo)) =
      some (1, perf0.map PerfEntry.time, perf0.map PerfEntry.memory,
        perf0.drop 1, perf0.head?.map fun _ => cached)) ∧
    (lookupK h.bwdWeights_map (bwdWeightsFindKey cd a b c) = some cached →
      (FindConvBwdWeightsAlgorithm ext cd h a b c 1 perf0 wsG wsS sorted).map
        (fun o => (o.returnedAlgoCount, o.perf.map PerfEntry.time,
          o.perf.map PerfEntry.memory, o.perf.drop 1,
          o.perf.head?.map PerfEntry.algo)) =
      some (1, perf0.map PerfEntry.time, perf0.map PerfEntry.memory,
        perf0.drop 1, perf0.head?.map fun _ => cached)) := by
  refine ⟨fun hhit => ?_, fun hhit => ?_, fun hhit => ?_⟩
  · rw [findConvFwd_hit ext cd h a b c perf0 wsG wsS sorted cached hhit]
    simp only [Option.map_some']
    rw [writeAlgo0_map_time, writeAlgo0_map_memory, writeAlgo0_drop_one,
      writeAlgo0_head_algo]
  · rw [findConvBwdData_hit ext cd h a b c perf0 wsG wsS sorted cached hhit]
    simp only [Option.map_some']
    rw [writeAlgo0_map_time, writeAlgo0_map_memory, writeAlgo0_drop_one,
      writeAlgo0_head_algo]
  · rw [findConvBwdWeights_hit ext cd h a b c perf0 wsG wsS sorted cached hhit]
    simp only [Option.map_some']
    rw [writeAlgo0_map_time, writeAlgo0_map_memory, writeAlgo0_drop_one,
      writeAlgo0_head_algo]

/-- Witness for C10 at the concrete hit state. -/
theorem C10_witness :
    (FindConvFwdAlgorithm oracleZero cdStride1 handleHitAll t16 w1x1 t16 1
        [⟨7, 9, 9⟩] false 0 []).map
      (fun o => (o.returnedAlgoCount, o.perf.map PerfEntry.time,
        o.perf.map PerfEntry.memory, o.perf.drop 1,
        o.perf.head?.map PerfEntry.algo)) =
    some (1, [⟨7, 9, 9⟩].map PerfEntry.time, [⟨7, 9, 9⟩].map PerfEntry.memory,
      ([⟨7, 9, 9⟩] : List PerfEntry).drop 1,
      ([⟨7, 9, 9⟩] : List PerfEntry).head?.map fun _ => 3) :=
  (C10_hit_writes_only_algo oracleZero cdStride1 handleHitAll t16 w1x1 t16
    [⟨7, 9, 9⟩] false 0 [] 3).1 (by decide)

/-! ## Claim C4 -/

/-- Inversion of the common search epilogue. -/
theorem finishSearch_inv {resolver : String → Int} {perf0 : List PerfEntry}
    {sorted : List PerfField} {request : Int} {runs : Nat} {db : List PerfField}
    {insertWinner : String → Handle} {o : FindOutcome}
    (hfin : finishSearch resolver perf0 sorted request runs db insertWinner = some o) :
    o.db = db ∧ o.runs = runs ∧
      o.returnedAlgoCount = min request.toNat sorted.length ∧
      o.perf = writeEntries resolver perf0 sorted (min request.toNat sorted.length) := by
  unfold finishSearch at hfin
  split at hfin
  · simp at hfin
  · split at hfin
    · simp at hfin
    · injection hfin with h
      subst h
      exact ⟨rfl, rfl, rfl, rfl⟩

/-- The written prefix of `writeEntries` is the resolved image of the
sorted prefix. -/
theorem writeEntries_take (resolver : String → Int) (perf0 : List PerfEntry)
    (sorted : List PerfField) (count : Nat) (hc : count ≤ sorted.length) :
    (writeEntries resolver perf0 sorted count).take count =
      (sorted.take count).map
        fun pf => (⟨resolver pf.name, pf.time, pf.workspace⟩ : PerfEntry) := by
  unfold writeEntries
  refine List.take_left' ?_
  rw [List.length_map, List.length_take]
  omega

/-- The written prefix of `writeEntries` is ascending in time whenever
the sorted list is. -/
theorem writeEntries_pairwise (resolver : String → Int) (perf0 : List PerfEntry)
    (sorted : List PerfField) (count : Nat) (hc : count ≤ sorted.length)
    (hp : sorted.Pairwise fun a b => a.time ≤ b.time) :
    ((writeEntries resolver perf0 sorted count).take count).Pairwise
      (fun e1 e2 => e1.time ≤ e2.time) := by
  rw [writeEntries_take resolver perf0 sorted count hc]
  exact List.Pairwise.map _ (fun a b hab => hab)
    (List.Pairwise.sublist (List.take_sublist count sorted) hp)

/-- Counterexample to claim C4: the GEMM candidate is discovered before
the Direct candidate and both measure time 1, yet the supplied ordering
that ranks Direct first satisfies the `std::sort` contract, and the
search then returns Direct (id 1) as the first result.  Stable
tie-breaking by discovery order is therefore not guaranteed —
`std::sort` is not a stable sort. -/
theorem C4_counterexample :
    IsStdSortOutput [pfGemmFwd, pfDirectFwd] [pfDirectFwd, pfGemmFwd] ∧
    pfGemmFwd.time = pfDirectFwd.time ∧
    FindConvFwdAlgorithm oracleDirect1 cdStride1 handle0 t16 w1x1 t16 2
        [⟨7, 9, 9⟩, ⟨7, 9, 9⟩] false 0 [pfDirectFwd, pfGemmFwd] = some oC4 ∧
    oC4.db = [pfGemmFwd, pfDirectFwd] ∧
    oC4.perf.head?.map PerfEntry.algo = some 1 ∧
    FwdAlgoResolver "miopenConvolutionFwdAlgoGEMM" = 0 ∧
    FwdAlgoResolver "miopenConvolutionFwdAlgoDirect" = 1 := by
  refine ⟨⟨by decide, by decide⟩, by decide, by decide, by decide, by decide, by decide,
    by decide⟩

/-- Claim C4 amended: in every search call that actually benchmarks (not
a single-request cache hit), the number of returned results is the
lesser of the requested count and the candidate count, and the returned
entries are ascending in measured time; the relative order of
candidates with equal time is unspecified (the code sorts with the
unstable `std::sort`). -/
theorem C4_ranking (ext : Externals) (cd : ConvolutionDescriptor) (h : Handle)
    (a b c : TensorDescriptor) (request : Int) (perf0 : List PerfEntry)
    (wsG : Bool) (wsS : Nat) (sorted : List PerfField) (o : FindOutcome)
    (hreq : 1 ≤ request) :
    ((lookupK h.fwd_map (fwdFindKey cd a b c) = none ∨ request ≠ 1) →
      FindConvFwdAlgorithm ext cd h a b c request perf0 wsG wsS sorted = some o →
      IsStdSortOutput o.db sorted →
      o.returnedAlgoCount = min request.toNat o.db.length ∧
        (o.perf.take o.returnedAlgoCount).Pairwise
          (fun e1 e2 => e1.time ≤ e2.time)) ∧
    ((lookupK h.bwdData_map (bwdDataFindKey cd a b c) = none ∨ request ≠ 1) →
      FindConvBwdDataAlgorithm ext cd h a b c request perf0 wsG wsS sorted = some o →
      IsStdSortOutput o.db sorted →
      o.returnedAlgoCount = min request.toNat o.db.length ∧
        (o.perf.take o.returnedAlgoCount).Pairwise
          (fun e1 e2 => e1.time ≤ e2.time)) ∧
    ((lookupK h.bwdWeights_map (bwdWeightsFindKey cd a b c) = none ∨ request ≠ 1) →
      FindConvBwdWeightsAlgorithm ext cd h a b c request perf0 wsG wsS sorted = some o →
      IsStdSortOutput o.db sorted →
      o.returnedAlgoCount = min request.toNat o.db.length ∧
        (o.perf.take o.returnedAlgoCount).Pairwise
          (fun e1 e2 => e1.time ≤ e2.time)) := by
  refine ⟨fun hmiss hrun hsort => ?_, fun hmiss hrun hsort => ?_,
    fun hmiss hrun hsort => ?_⟩
  · rw [findConvFwd_eq_body ext cd h a b c request perf0 wsG wsS sorted hreq hmiss]
      at hrun
    simp only [fwdSearchBody] at hrun
    obtain ⟨hdb, -, hcount, hperf⟩ := finishSearch_inv hrun
    have hlen : o.db.length = sorted.length := hsort.1.length_eq
    refine ⟨by rw [hcount, hlen], ?_⟩
    rw [hcount, hperf]
    exact writeEntries_pairwise _ _ _ _ (min_le_right _ _) hsort.2
  · rw [findConvBwdData_eq_body ext cd h a b c request perf0 wsG wsS sorted hreq hmiss]
      at hrun
    simp only [bwdDataSearchBody] at hrun
    obtain ⟨hdb, -, hcount, hperf⟩ := finishSearch_inv hrun
    have hlen : o.db.length = sorted.length := hsort.1.length_eq
    refine ⟨by rw [hcount, hlen], ?_⟩
    rw [hcount, hperf]
    exact writeEntries_pairwise _ _ _ _ (min_le_right _ _) hsort.2
  · rw [findConvBwdWeights_eq_body ext cd h a b c request perf0 wsG wsS sorted hreq hmiss]
      at hrun
    simp only [bwdWeightsSearchBody] at hrun
    obtain ⟨hdb, -, hcount, hperf⟩ := finishSearch_inv hrun
    have hlen : o.db.length = sorted.length := hsort.1.length_eq
    refine ⟨by rw [hcount, hlen], ?_⟩
    rw [hcount, hperf]
    exact writeEntries_pairwise _ _ _ _ (min_le_right _ _) hsort.2

/-- Witness for the amended C4 at the concrete tie scenario. -/
theorem C4_witness :
    oC4.returnedAlgoCount = min (2 : Int).toNat oC4.db.length ∧
    (oC4.perf.take oC4.returnedAlgoCount).Pairwise
      (fun e1 e2 => e1.time ≤ e2.time) :=
  (C4_ranking oracleDirect1 cdStride1 handle0 t16 w1x1 t16 2
    [⟨7, 9, 9⟩, ⟨7, 9, 9⟩] false 0 [pfDirectFwd, pfGemmFwd] oC4 (by decide)).1
    (Or.inl (by decide)) (by decide) ⟨by decide, by decide⟩

/-! ## Claim C9 -/

/-- Under `wei_w < wei_h` the backward-weights search body never produces
a Direct candidate: its db contains GEMM entries only. -/
theorem bwdWeightsSearchBody_no_direct (ext : Externals) (cd : ConvolutionDescriptor)
    (h : Handle) (dy x dw : TensorDescriptor) (request : Int)
    (perf0 : List PerfEntry) (wsG : Bool) (wsS : Nat) (sorted : List PerfField)
    (o : FindOutcome) (hflt : dw.w < dw.h)
    (hbody : bwdWeightsSearchBody ext cd h dy x dw request perf0 wsG wsS sorted =
      some o) :
    (o.db.all fun pf => pf.name != "miopenConvolutionBwdWeightsAlgoDirect") = true := by
  simp only [bwdWeightsSearchBody] at hbody
  obtain ⟨hdb, -, -, -⟩ := finishSearch_inv hbody
  rw [hdb]
  split
  · rename_i hcon
    exact absurd hcon.2.2.2.1 (by omega)
  · split
    · split
      · split
        · rfl
        · split
          · rfl
          · rfl
      · rfl
    · split
      · split
        · rfl
        · split
          · rfl
          · rfl
      · rfl

/-- Claim C9: the direct strategy participates in backward-weights only
when the filter's kernel width is at least its kernel height.  For any
filter with width < height the search never benchmarks a direct
candidate (the db holds no Direct entry), and dispatching the
backward-weights Direct algorithm in Convolution mode launches no
kernel. -/
theorem C9_bwdweights_direct_gating (ext : Externals) (cd : ConvolutionDescriptor)
    (h : Handle) (dy x dw : TensorDescriptor) (request : Int)
    (perf0 : List PerfEntry) (wsG : Bool) (wsS : Nat) (sorted : List PerfField)
    (o : FindOutcome) (hflt : dw.w < dw.h) :
    (FindConvBwdWeightsAlgorithm ext cd h dy x dw request perf0 wsG wsS sorted =
        some o →
      (o.db.all fun pf => pf.name != "miopenConvolutionBwdWeightsAlgoDirect") = true) ∧
    (cd.mode = .Convolution → dy.dtype = dw.dtype → dy.dtype = x.dtype →
      dy.n = x.n →
      ConvolutionBackwardWeights ext cd dy x dw .Direct true true = some []) := by
  constructor
  · intro hrun
    unfold FindConvBwdWeightsAlgorithm at hrun
    split at hrun
    · simp at hrun
    · split at hrun
      · split at hrun
        · injection hrun with h'
          subst h'
          rfl
        · exact bwdWeightsSearchBody_no_direct ext cd h dy x dw request perf0
            wsG wsS sorted o hflt hrun
      · exact bwdWeightsSearchBody_no_direct ext cd h dy x dw request perf0
          wsG wsS sorted o hflt hrun
  · intro hmode hty1 hty2 hn
    unfold ConvolutionBackwardWeights
    rw [if_neg (not_or.mpr ⟨not_not_intro hty1, not_not_intro hty2⟩),
      if_neg (not_not_intro hn), if_neg (by simp)]
    simp only [hmode]
    rw [if_neg (by omega)]

/-- Witness for C9 at the concrete 5x3-filter scenario. -/
theorem C9_witness :
    ((oC9.db.all fun pf =>
        pf.name != "miopenConvolutionBwdWeightsAlgoDirect") = true) ∧
    ConvolutionBackwardWeights oracleZero cdStride1 dyC9 xC9 dwC9 .Direct
      true true = some [] :=
  ⟨(C9_bwdweights_direct_gating oracleZero cdStride1 handle0 dyC9 xC9 dwC9 1
      [] true 1000 [⟨"miopenConvolutionBwdWeightsAlgoGEMM", 2, 480⟩] oC9
      (by decide)).1 (by decide),
   (C9_bwdweights_direct_gating oracleZero cdStride1 handle0 dyC9 xC9 dwC9 1
      [] true 1000 [⟨"miopenConvolutionBwdWeightsAlgoGEMM", 2, 480⟩] oC9
      (by decide)).2 rfl rfl rfl rfl⟩

/-! ## Claim C8 -/

/-- Counterexample to claim C8's description of the Transpose path: for a
non-1x1 filter the per-sample sequence is a GEMM into the workspace
followed by a col2im transform out of it — there is no im2col, and no
transform precedes the GEMM. -/
theorem C8_counterexample :
    ConvolutionForward oracleZero cdTrans xT wT yT .FFT true true false 0 =
      some [Op.RunGemm, Op.Col2Im] ∧
    ConvolutionForward oracleZero cdTrans xT wT yT .GEMM true true false 0 =
      some [Op.RunGemm, Op.Col2Im] ∧
    [Op.RunGemm, Op.Col2Im] ≠ [Op.Im2Col, Op.RunGemm] ∧
    Op.Im2Col ∉ [Op.RunGemm, Op.Col2Im] := by
  refine ⟨by decide, by decide, by decide, by decide⟩

/-- Claim C8 amended: in Transpose mode `ConvolutionForward` ignores its
algorithm argument — every algorithm value yields the same execution —
and the executed path is a per-sample GEMM, followed by a col2im
transform out of the workspace when the filter is not 1x1 with unit
stride. -/
theorem C8_transpose_ignores_algo (ext : Externals) (cd : ConvolutionDescriptor)
    (x w y : TensorDescriptor) (algo1 algo2 : FwdAlgo) (a1 b1 : Bool)
    (wsG : Bool) (wsS : Nat) (hmode : cd.mode = .Transpose) :
    ConvolutionForward ext cd x w y algo1 a1 b1 wsG wsS =
      ConvolutionForward ext cd x w y algo2 a1 b1 wsG wsS ∧
    (x.dtype = y.dtype → x.dtype = w.dtype → x.c = w.n →
      ConvolutionForward ext cd x w y algo1 true true wsG wsS =
        some (if w.h ≠ 1 ∨ w.w ≠ 1 ∨ cd.u ≠ 1 ∨ cd.v ≠ 1 then
            perSample x.n [Op.RunGemm, Op.Col2Im]
          else perSample x.n [Op.RunGemm])) := by
  constructor
  · simp only [ConvolutionForward, hmode]
  · intro hty1 hty2 hch
    simp only [ConvolutionForward, hmode]
    rw [if_neg (not_or.mpr ⟨not_not_intro hty1, not_not_intro hty2⟩),
      if_neg (by simp), if_neg (not_not_intro hch)]
    split
    · rfl
    · rfl

/-- Witness for the amended C8 at the concrete transpose scenario. -/
theorem C8_witness :
    ConvolutionForward oracleZero cdTrans xT wT yT .Winograd true true false 0 =
      ConvolutionForward oracleZero cdTrans xT wT yT .Direct true true false 0 ∧
    ConvolutionForward oracleZero cdTrans xT wT yT .Winograd true true false 0 =
      some (if wT.h ≠ 1 ∨ wT.w ≠ 1 ∨ cdTrans.u ≠ 1 ∨ cdTrans.v ≠ 1 then
          perSample xT.n [Op.RunGemm, Op.Col2Im]
        else perSample xT.n [Op.RunGemm]) :=
  ⟨(C8_transpose_ignores_algo oracleZero cdTrans xT wT yT .Winograd .Direct
      true true false 0 rfl).1,
   (C8_transpose_ignores_algo oracleZero cdTrans xT wT yT .Winograd .Direct
      true true false 0 rfl).2 rfl rfl rfl⟩

end MIOpen
